import Mathlib

/-!
Verification of the page-analysis / report-aggregation pipeline of the
ellaai-firebase-migration analysis scripts.

The repository holds three Python browser-automation scripts:

  frontend/scripts/comprehensive-ellaai-analysis.py  (class EllaAIAnalyzer)
  frontend/analyze_platform.py
  frontend/analyze_admin.py

Each script walks a fixed list of target URLs, navigates a browser page to
each one, runs DOM queries, takes screenshots, and aggregates the per-target
observations into a nested dict that is dumped to JSON.

Shallow embedding conventions used throughout this file:

  - The browser-automation collaborator (navigate, query DOM, evaluate,
    screenshot) is modelled as an environment: a record of oracles giving,
    for each target, either the observed page state or the exception message
    raised while probing it.  A Python statement that may raise is modelled
    with an Except String result supplied by the environment; try/except
    blocks become matches on those results.
  - Python dicts are modelled as Lean structures when the key set is fixed by
    a dict literal in the source, and as association lists when keys are
    dynamic (e.g. the per-path pages mapping).  Dict insertion order is
    preserved as list order.
  - JSON trees are modelled by the inductive JVal below; JSON numbers are
    modelled as exact integer numerals (every number the pipeline writes is a
    status code, a count or a duration; Python round-trips them exactly).
  - Side-effect traces (navigations, screenshots, browser close) are modelled
    as explicit event lists so that resource-scoping and sequencing claims
    can be stated.
-/

/-- JSON value trees, used for the serialized report and for the raw values
returned by page.evaluate. -/
inductive JVal : Type where
  | null : JVal
  | bool (b : Bool) : JVal
  | num (n : Int) : JVal
  | str (s : String) : JVal
  | arr (xs : List JVal) : JVal
  | obj (fields : List (String × JVal)) : JVal

/-- Keys of a JSON object (empty for non-objects). -/
def JVal.objKeys : JVal → List String
  | .obj fs => fs.map Prod.fst
  | _ => []

/-- Does the character list l start with the pattern: listStartsWith pat l. -/
def listStartsWith : List Char → List Char → Bool
  | [], _ => true
  | _ :: _, [] => false
  | a :: as, b :: bs => a == b && listStartsWith as bs

/-- Substring test on character lists: does sub occur inside l. -/
def listHasSub (sub : List Char) : List Char → Bool
  | [] => sub.isEmpty
  | c :: rest => listStartsWith sub (c :: rest) || listHasSub sub rest

/-- Python substring test: sub in s. -/
def strHasSub (s sub : String) : Bool :=
  listHasSub sub.toList s.toList

/-- Python string slicing s[:n] (first n characters). -/
def strTake (s : String) (n : Nat) : String :=
  String.mk (s.toList.take n)

/-- Python str.strip: drop leading and trailing whitespace characters. -/
def pyStrip (s : String) : String :=
  String.mk
    (((s.toList.dropWhile Char.isWhitespace).reverse.dropWhile
        Char.isWhitespace).reverse)

/-- Folding an append of per-element blocks over a list equals the initial
accumulator followed by the join of the blocks.  This relates the loop-shaped
definitions (faithful to the Python for loops) to their block decompositions. -/
theorem foldl_append_blocks {α β : Type} (f : α → List β) (l : List α)
    (init : List β) :
    l.foldl (fun acc a => acc ++ f a) init = init ++ (l.map f).flatten := by
  induction l generalizing init with
  | nil => simp
  | cons a t ih => simp [List.foldl, ih, List.append_assoc]

/-- Pair version of foldl_append_blocks, for loops that extend two result
lists per iteration. -/
theorem foldl_append_blocks₂ {α β γ : Type} (f : α → List β) (g : α → List γ)
    (l : List α) (i₁ : List β) (i₂ : List γ) :
    l.foldl (fun acc a => (acc.1 ++ f a, acc.2 ++ g a)) (i₁, i₂)
      = (i₁ ++ (l.map f).flatten, i₂ ++ (l.map g).flatten) := by
  induction l generalizing i₁ i₂ with
  | nil => simp
  | cons a t ih => simp [List.foldl, ih, List.append_assoc]

/-- Counting, inside a join of per-key blocks, the elements carrying a given
key: when the key list has no duplicates, only that key's own block
contributes. -/
theorem countP_join_keyed {β : Type} (key : β → String) (f : String → List β)
    (hk : ∀ s b, b ∈ f s → key b = s) (l : List String) (u : String)
    (hnd : l.Nodup) (hm : u ∈ l) :
    ((l.map f).flatten.countP (fun b => key b == u)) = (f u).length := by
  induction l with
  | nil => cases hm
  | cons a t ih =>
    simp only [List.map_cons, List.flatten_cons, List.countP_append]
    rcases List.mem_cons.mp hm with h | h
    · subst h
      have h1 : (f u).countP (fun b => key b == u) = (f u).length := by
        apply List.countP_eq_length.mpr
        intro b hb
        simp [hk u b hb]
      have h2 : ((t.map f).flatten.countP (fun b => key b == u)) = 0 := by
        apply List.countP_eq_zero.mpr
        intro b hb
        rcases List.mem_flatten.mp hb with ⟨blk, hblk, hbmem⟩
        rcases List.mem_map.mp hblk with ⟨s, hs, rfl⟩
        have : key b = s := hk s b hbmem
        have hne : s ≠ u := by
          intro hcontra
          subst hcontra
          exact (List.nodup_cons.mp hnd).1 hs
        simp [this, hne]
      rw [h1, h2]
      omega
    · have hne : a ≠ u := by
        intro hcontra
        subst hcontra
        exact (List.nodup_cons.mp hnd).1 h
      have h1 : (f a).countP (fun b => key b == u) = 0 := by
        apply List.countP_eq_zero.mpr
        intro b hb
        simp [hk a b hb, hne]
      rw [h1, ih (List.nodup_cons.mp hnd).2 h]
      omega

/-- Length bound for a join of uniformly bounded blocks. -/
theorem join_length_le {α β : Type} (f : α → List β) (l : List α) (k : Nat)
    (h : ∀ a ∈ l, (f a).length ≤ k) :
    ((l.map f).flatten).length ≤ l.length * k := by
  induction l with
  | nil => simp
  | cons a t ih =>
    simp only [List.map_cons, List.flatten_cons, List.length_append,
      List.length_cons]
    have ha := h a (by simp)
    have ht := ih (fun x hx => h x (by simp [hx]))
    calc (f a).length + ((t.map f).flatten).length ≤ k + t.length * k := by omega
      _ = (t.length + 1) * k := by ring

/-- Finding the entry for a present key in a keyed map built over a
duplicate-free key list returns exactly that key's image. -/
theorem find?_map_keyed {β : Type} (f : String → β) (l : List String)
    (p : String) (hm : p ∈ l) (hnd : l.Nodup) :
    (l.map (fun q => (q, f q))).find? (fun e => e.1 == p)
      = some (p, f p) := by
  induction l with
  | nil => cases hm
  | cons a t ih =>
    rcases List.mem_cons.mp hm with h | h
    · subst h
      simp [List.find?]
    · have hne : a ≠ p := by
        intro hcontra
        subst hcontra
        exact (List.nodup_cons.mp hnd).1 h
      simp only [List.map_cons, List.find?]
      have : ((a, f a).1 == p) = false := by simp [hne]
      simp only [this]
      exact ih h (List.nodup_cons.mp hnd).2

/-- Side-effect events emitted by the scripts: browser lifecycle, per-target
probe steps, and report serialization. -/
inductive Event : Type where
  | launch : Event
  | launchFailed : Event
  | navigate (url : String) : Event
  | waitStep (url : String) : Event
  | screenshot (url : String) : Event
  | evaluate (url : String) : Event
  | record (url : String) : Event
  | serializeReport : Event
  | close : Event
deriving DecidableEq, Repr

/-- Target URL an event belongs to, when it is a per-target probe step. -/
def Event.urlOf : Event → Option String
  | .navigate u => some u
  | .waitStep u => some u
  | .screenshot u => some u
  | .evaluate u => some u
  | .record u => some u
  | _ => none

/-- A list of events ends with a single browser-close event. -/
def closesOnceAtEnd (l : List Event) : Prop :=
  l.getLast? = some Event.close ∧ l.countP (fun e => e == Event.close) = 1

namespace Comp

/-! Embedding of frontend/scripts/comprehensive-ellaai-analysis.py
(class EllaAIAnalyzer). -/

/-- Base URL hard-coded in EllaAIAnalyzer.init. -/
def base_url : String := "https://ellaai-platform-prod.web.app"

/-- Computed style record for one key element, as built by the
extract_design_tokens page script. -/
structure ElemStyle : Type where
  backgroundColor : String
  color : String
  fontSize : String
  fontFamily : String
  fontWeight : String
  borderRadius : String
  padding : String
  margin : String
  boxShadow : String
  border : String
deriving DecidableEq, Repr

/-- Design tokens extracted by extract_design_tokens: the cssVariables map,
the optional MUI theme (key present only when the page exposes it), and the
per-element style map. -/
structure DesignTokens : Type where
  cssVariables : List (String × String)
  muiTheme : Option JVal
  elementStyles : List (String × ElemStyle)

/-- One form field record collected by the admin page-analysis script
(selector: input, select, textarea).  The placeholder property is undefined
on select elements, which serializes as null. -/
structure FormField : Type where
  ftype : String
  name : String
  placeholder : Option String
  required : Bool
deriving DecidableEq, Repr

/-- One action-button record collected by the admin page-analysis script.
The type property is undefined on elements that only carry role=button. -/
structure ActionButton : Type where
  text : String
  disabled : Bool
  btype : Option String
deriving DecidableEq, Repr

/-- Raw DOM facts about an admin page, read off by the page.evaluate script
in analyze_admin_interface.  The boolean page-analysis flags are computed
from these counts by mkPageAnalysis. -/
structure PageState : Type where
  title : String
  url : String
  bodyTextLen : Nat
  formElemCount : Nat
  tableCount : Nat
  navCount : Nat
  cardCount : Nat
  loadingCount : Nat
  errorMessages : List String
  formFields : List FormField
  actionButtons : List ActionButton
deriving DecidableEq, Repr

/-- The page_analysis dict built by the page.evaluate script in
analyze_admin_interface (fixed key set and order of the JS object literal). -/
structure PageAnalysis : Type where
  title : String
  url : String
  hasContent : Bool
  hasForm : Bool
  hasTable : Bool
  hasNavigation : Bool
  hasCards : Bool
  hasLoadingIndicators : Bool
  errorMessages : List String
  formFields : List FormField
  actionButtons : List ActionButton
deriving DecidableEq, Repr

/-- Computation of the page_analysis flags from the raw DOM facts, following
the page.evaluate script: hasContent is body text length over 100, the other
flags are positivity of the respective selector counts. -/
def mkPageAnalysis (s : PageState) : PageAnalysis where
  title := s.title
  url := s.url
  hasContent := decide (100 < s.bodyTextLen)
  hasForm := decide (0 < s.formElemCount)
  hasTable := decide (0 < s.tableCount)
  hasNavigation := decide (0 < s.navCount)
  hasCards := decide (0 < s.cardCount)
  hasLoadingIndicators := decide (0 < s.loadingCount)
  errorMessages := s.errorMessages
  formFields := s.formFields
  actionButtons := s.actionButtons

/-- The functionality dict built by test_form_functionality.  The
required_fields slot starts as an empty list and is overwritten with a count
inside the try block, so its type is a sum, modelled as Option Nat with none
for the initial empty list. -/
structure FunctionalityTest : Type where
  has_validation : Bool
  required_fields : Option Nat
  submit_test : String
  api_connectivity : String
deriving DecidableEq, Repr

/-- Browser observations driving one call of test_form_functionality: the
required-field locator count, the submit-button locator count, and the
validation-message count observed after clicking submit.  Each step carries
the exception it may raise. -/
structure FtObs : Type where
  requiredCount : Except String Nat
  submitCount : Except String Nat
  clickValidationCount : Except String Nat

/-- Embedding of test_form_functionality: a try block computing the three
locator counts in order, with the except branch recording the error message
in submit_test and keeping the fields already assigned. -/
def test_form_functionality (o : FtObs) : FunctionalityTest :=
  match o.requiredCount with
  | .error m =>
      { has_validation := false, required_fields := none
        submit_test := "error: " ++ m, api_connectivity := "unknown" }
  | .ok rc =>
      match o.submitCount with
      | .error m =>
          { has_validation := false, required_fields := some rc
            submit_test := "error: " ++ m, api_connectivity := "unknown" }
      | .ok 0 =>
          { has_validation := false, required_fields := some rc
            submit_test := "not_tested", api_connectivity := "unknown" }
      | .ok (_ + 1) =>
          match o.clickValidationCount with
          | .error m =>
              { has_validation := false, required_fields := some rc
                submit_test := "error: " ++ m, api_connectivity := "unknown" }
          | .ok vc =>
              { has_validation := decide (0 < vc), required_fields := some rc
                submit_test :=
                  if 0 < vc then "validation_works" else "no_validation"
                api_connectivity := "unknown" }

/-- Everything the live page yields for one successfully probed admin path:
the navigation response status (none when goto returned no response), the
404-text locator count, the evaluated page state, the form-test observations,
the design tokens, and the screenshot path. -/
structure AdminPageObs : Type where
  respStatus : Option Nat
  count404 : Nat
  state : PageState
  ft : FtObs
  tokens : DesignTokens
  shot : String

/-- Outcome of probing one admin path: either some step inside the per-path
try block raised (with the exception message), or the full observation. -/
inductive AdminOutcome : Type where
  | exn (msg : String) : AdminOutcome
  | ok (obs : AdminPageObs) : AdminOutcome

/-- One value of the pages mapping of analyze_admin_interface: the success
dict (fixed six keys) or the failure dict written by the except branch. -/
inductive PageEntry : Type where
  | success (screenshot_path : String) (status_code : Nat) (is_error : Bool)
      (page_analysis : PageAnalysis) (functionality_test : Option FunctionalityTest)
      (design_tokens : DesignTokens) : PageEntry
  | failed (error : String) : PageEntry

/-- Is this entry the failure dict written by the except branch. -/
def PageEntry.isFailed : PageEntry → Bool
  | .failed _ => true
  | _ => false

/-- The is_error flag of a success entry. -/
def PageEntry.isErr : PageEntry → Option Bool
  | .success _ _ e _ _ _ => some e
  | .failed _ => none

/-- The status_code field of a success entry. -/
def PageEntry.statusOf : PageEntry → Option Nat
  | .success _ st _ _ _ _ => some st
  | .failed _ => none

/-- The hasContent flag inside the page_analysis of a success entry. -/
def PageEntry.hasContentOf : PageEntry → Option Bool
  | .success _ _ _ pa _ _ => some pa.hasContent
  | .failed _ => none

/-- The fixed admin page list of analyze_admin_interface. -/
def admin_pages : List String :=
  ["/admin", "/admin/create-company", "/admin/users", "/admin/audit-logs",
   "/admin/system-health", "/admin/database-query"]

/-- Probing one admin path, following the body of the per-path try block:
status_code defaults to 0 without a response, is_error is an HTTP status of
at least 400 or visible 404 text, page_analysis comes from the evaluate
script, and functionality_test stays the empty dict unless hasForm. -/
def probeAdminPage (outc : String → AdminOutcome) (p : String) : PageEntry :=
  match outc p with
  | .exn m => .failed m
  | .ok o =>
      let status := o.respStatus.getD 0
      let is404 := decide (0 < o.count404)
      let isErr := decide (400 ≤ status) || is404
      let pa := mkPageAnalysis o.state
      let ft := if pa.hasForm then some (test_form_functionality o.ft) else none
      .success o.shot status isErr pa ft o.tokens

/-- The admin_analysis dict of analyze_admin_interface.  Its
navigation_structure, connectivity_issues and functionality_tests slots are
initialized and never written, so only the pages mapping is a field; the
constant empty slots reappear in the JSON encoding. -/
structure AdminAnalysis : Type where
  pages : List (String × PageEntry)

/-- Embedding of analyze_admin_interface: every path of the enumeration gets
exactly one pages entry, the per-path try/except turning failures into
failure entries instead of propagating them. -/
def analyze_admin_interface (outc : String → AdminOutcome) : AdminAnalysis where
  pages := admin_pages.map (fun p => (p, probeAdminPage outc p))

/-- Probe events of one admin path: navigation, then on success the fixed
wait / screenshot / evaluate steps, and in every case the recording of that
path's entry (the except branch records too). -/
def adminTargetEvents (outc : String → AdminOutcome) (p : String) : List Event :=
  match outc p with
  | .exn _ => [.navigate (base_url ++ p), .record (base_url ++ p)]
  | .ok _ =>
      [.navigate (base_url ++ p), .waitStep (base_url ++ p),
       .screenshot (base_url ++ p), .evaluate (base_url ++ p),
       .record (base_url ++ p)]

/-- Event trace of the admin loop, built exactly like the for loop: each
iteration appends its own probe steps to the trace accumulated so far. -/
def adminStageTrace (outc : String → AdminOutcome) : List Event :=
  admin_pages.foldl (fun tr p => tr ++ adminTargetEvents outc p) []

/-- The page_structure dict built by the page.evaluate script of
analyze_main_application (the EllaAIAnalyzer method).  hasCards and
hasButtons are element counts there, not flags. -/
structure PageStructure : Type where
  title : String
  url : String
  bodyClasses : String
  hasNavigation : Bool
  hasCards : Nat
  hasButtons : Nat
  colorScheme : String
  mainContentSelector : Bool

/-- The main_app dict returned by analyze_main_application. -/
structure MainApp : Type where
  screenshot_path : String
  page_structure : PageStructure
  design_tokens : DesignTokens
  is_login_page : Bool
  timestamp : String

/-- Observations of the main-application stage when it succeeds: screenshot
path, design tokens, page structure, the count of email and password inputs
(is_login_page is its positivity), and the timestamp string. -/
structure CompMainObs : Type where
  shot : String
  tokens : DesignTokens
  pstruct : PageStructure
  loginInputCount : Nat
  ts : String

/-- One monitored network request of test_service_connectivity.  The status
and response_time keys are added together when a matching response arrives. -/
structure NetReq : Type where
  url : String
  method : String
  timestamp : String
  response : Option (Int × String)

/-- The connectivity_results dict of test_service_connectivity; the errors
slot is initialized and never written.  The load time is a duration in
seconds, modelled as an exact numeral. -/
structure Connectivity : Type where
  firebase_auth : String
  api_calls : List NetReq
  errors : List String
  loadTimeAdmin : Int

/-- Observations of the connectivity stage when it succeeds. -/
structure ConnObs : Type where
  firebase : String
  reqs : List NetReq
  loadTime : Int

/-- Python list slicing l[-10:]: the last ten elements. -/
def lastTen {α : Type} (l : List α) : List α :=
  l.drop (l.length - 10)

/-- Building the connectivity_results dict from the stage observations:
api_calls keeps the last ten monitored requests. -/
def mkConnectivity (o : ConnObs) : Connectivity where
  firebase_auth := o.firebase
  api_calls := lastTen o.reqs
  errors := []
  loadTimeAdmin := o.loadTime

/-- The difference record stored under one CSS variable by compare_designs. -/
structure VarDiff : Type where
  main_app : String
  admin_page : String

/-- One design-gap record produced by compare_designs; its type slot is the
constant css_variables string. -/
structure DesignGap : Type where
  page : String
  missing_variables : List String
  different_values : List (String × VarDiff)

/-- Embedding of compare_designs: for each successfully probed admin page,
compare its cssVariables against the main app ones; record the variables the
admin page is missing and those with differing values.  The Python set
difference has no specified order; the embedding fixes main-app declaration
order, which no claim depends on. -/
def compare_designs (mainTokens : DesignTokens)
    (pages : List (String × PageEntry)) : List DesignGap :=
  pages.foldl
    (fun gaps pe =>
      match pe.2 with
      | .failed _ => gaps
      | .success _ _ _ _ _ dt =>
          let mainVars := mainTokens.cssVariables
          let adminVars := dt.cssVariables
          let missing := (mainVars.map Prod.fst).filter
            (fun k => !((adminVars.map Prod.fst).contains k))
          let diffs := mainVars.filterMap
            (fun kv =>
              match adminVars.lookup kv.1 with
              | some v2 => if kv.2 ≠ v2 then some (kv.1, ⟨kv.2, v2⟩) else none
              | none => none)
          if !missing.isEmpty || !diffs.isEmpty then gaps ++ [⟨pe.1, missing, diffs⟩]
          else gaps)
    []

/-- The analysis_results dict of EllaAIAnalyzer, as serialized after a
completed run.  Its design_analysis slot is initialized to an empty dict and
never written, so it reappears only in the JSON encoding. -/
structure AnalysisResults : Type where
  timestamp : String
  main_app : MainApp
  admin_interface : AdminAnalysis
  service_connectivity : Connectivity
  design_gaps : List DesignGap

/-- Environment of one run of the comprehensive script: the acquisition of
the browser session (chromium.launch, new_context, new_page, which all
precede the try block), and the outcome of each pipeline stage. -/
structure FullEnv : Type where
  timestamp : String
  launch : Except String Unit
  mainObs : Except String CompMainObs
  adminOutc : String → AdminOutcome
  connObs : Except String ConnObs
  serializeOk : Except String Unit

/-- Result of one run of the comprehensive script: the emitted event trace
and either the aggregated report or the exception that escaped run_analysis. -/
structure CompRun : Type where
  events : List Event
  result : Except String AnalysisResults

/-- Events of the main-application stage. -/
def compMainEvents : List Event :=
  [.navigate base_url, .waitStep base_url, .screenshot base_url,
   .evaluate base_url]

/-- Embedding of run_analysis: launch the browser, run the five steps inside
the try block, re-raise any stage failure, and close the browser in the
finally block on every path after the session was acquired. -/
def run_analysis (env : FullEnv) : CompRun :=
  match env.launch with
  | .error m => { events := [.launchFailed], result := .error m }
  | .ok _ =>
      match env.mainObs with
      | .error m =>
          { events := [.launch] ++ [.navigate base_url] ++ [.close]
            result := .error m }
      | .ok mo =>
          let mainApp : MainApp :=
            { screenshot_path := mo.shot, page_structure := mo.pstruct
              design_tokens := mo.tokens
              is_login_page := decide (0 < mo.loginInputCount)
              timestamp := mo.ts }
          let adminA := analyze_admin_interface env.adminOutc
          let adminTr := adminStageTrace env.adminOutc
          match env.connObs with
          | .error m =>
              { events := [.launch] ++ compMainEvents ++ adminTr
                  ++ [.navigate (base_url ++ "/admin")] ++ [.close]
                result := .error m }
          | .ok co =>
              let conn := mkConnectivity co
              let gaps := compare_designs mo.tokens adminA.pages
              let evts := [.launch] ++ compMainEvents ++ adminTr
                ++ [.navigate (base_url ++ "/admin")] ++ [.serializeReport]
                ++ [.close]
              match env.serializeOk with
              | .error m => { events := evts, result := .error m }
              | .ok _ =>
                  { events := evts
                    result := .ok
                      { timestamp := env.timestamp, main_app := mainApp
                        admin_interface := adminA, service_connectivity := conn
                        design_gaps := gaps } }

/-- Exit code of the comprehensive script: main catches the re-raised
exception and calls sys.exit 1, and returns normally (exit 0) otherwise. -/
def comprehensiveExit (env : FullEnv) : Nat :=
  match (run_analysis env).result with
  | .ok _ => 0
  | .error _ => 1

/-- The aggregated report of a completed run, when the run completed. -/
def runComprehensive (env : FullEnv) : Option AnalysisResults :=
  match (run_analysis env).result with
  | .ok r => some r
  | .error _ => none

end Comp

namespace Platform

/-! Embedding of frontend/analyze_platform.py. -/

/-- The login_analysis dict of analyze_login_page (four list slots; ux_issues
is initialized and never written by the checks). -/
structure LoginAnalysis : Type where
  security_features : List String
  ux_issues : List String
  missing_features : List String
  strengths : List String
deriving DecidableEq, Repr

/-- Selector-presence flags observed on the login page, one per
query_selector call of analyze_login_page. -/
structure LoginObs : Type where
  hasPasswordInput : Bool
  hasGoogle : Bool
  hasForgot : Bool
  hasSignup : Bool
  hasSSOText : Bool
  hasMFAText : Bool

/-- Building the login_analysis dict from the selector flags, appending each
finding in source order. -/
def mkLoginAnalysis (o : LoginObs) : LoginAnalysis where
  security_features :=
    (if o.hasPasswordInput then ["Password field properly masked"] else [])
      ++ (if o.hasGoogle then ["Google SSO integration"] else [])
  ux_issues := []
  missing_features :=
    (if o.hasForgot then [] else ["Password recovery link"])
      ++ (if o.hasSSOText then [] else ["Enterprise SSO (SAML/OIDC) not visible"])
      ++ (if o.hasMFAText then [] else ["Multi-factor authentication not visible"])
  strengths :=
    (if o.hasGoogle then ["Multiple authentication methods"] else [])
      ++ (if o.hasForgot then ["Password recovery option"] else [])
      ++ (if o.hasSignup then ["Clear signup option"] else [])

/-- One element matched by a navigation selector; fetching its inner text and
href attribute may raise, which the surrounding try/except observes. -/
structure PElem : Type where
  fetch : Except String (String × Option String)

/-- One navigation item recorded by extract_navigation_items. -/
structure NavItem : Type where
  text : String
  href : Option String
deriving DecidableEq, Repr

/-- Processing the elements of one selector inside the shared try block: an
element whose text or href fetch raises aborts the rest of this selector
(except: continue moves to the next selector), keeping items already
appended; an element is kept only when its stripped text is non-empty and
strictly shorter than 30 characters. -/
def processElems : List PElem → List NavItem
  | [] => []
  | e :: rest =>
      match e.fetch with
      | .error _ => []
      | .ok td =>
          let t := pyStrip td.1
          (if t != "" && t.length < 30 then [⟨t, td.2⟩] else [])
            ++ processElems rest

/-- The six navigation selectors of extract_navigation_items. -/
def nav_selectors : List String :=
  ["nav a", "[role=\"navigation\"] a", ".navbar a", ".menu a", ".nav-link",
   "header a"]

/-- Items contributed by one selector: nothing when the query itself raises,
otherwise the first ten matched elements are processed. -/
def selContribution (q : String → Except String (List PElem)) (s : String) :
    List NavItem :=
  match q s with
  | .error _ => []
  | .ok elems => processElems (elems.take 10)

/-- Embedding of extract_navigation_items: the per-selector contributions
are appended to the shared nav_items list in selector order. -/
def extract_navigation_items (q : String → Except String (List PElem)) :
    List NavItem :=
  nav_selectors.foldl (fun acc s => acc ++ selContribution q s) []

/-- The fixed URL list of analyze_main_application. -/
def urls_to_check : List String :=
  ["https://ellaai-platform-prod.web.app/",
   "https://ellaai-platform-prod.web.app/dashboard",
   "https://ellaai-platform-prod.web.app/demo",
   "https://ellaai-platform-prod.web.app/public"]

/-- Outcome of one iteration of the analyze_main_application loop: either
goto / url / title raised before anything was recorded, or the final URL and
title were read, with the later screenshot step and the per-selector element
queries still able to fail on their own. -/
inductive MainOutcome : Type where
  | exn (msg : String) : MainOutcome
  | ok (finalUrl : String) (title : String) (shot : Except String Unit)
      (q : String → Except String (List PElem)) : MainOutcome

/-- One accessible_pages entry of analyze_main_application. -/
structure AccessiblePage : Type where
  url : String
  final_url : String
  title : String
deriving DecidableEq, Repr

/-- The accessible_pages entries contributed by one URL: none when the probe
raised or the final URL contains login, one otherwise (the append happens
before the screenshot, so a screenshot failure keeps the entry). -/
def mainStepEntries (o : String → MainOutcome) (url : String) :
    List AccessiblePage :=
  match o url with
  | .exn _ => []
  | .ok f t _ _ =>
      if strHasSub f.toLower "login" then []
      else [{ url := url, final_url := f, title := t }]

/-- The navigation_structure items contributed by one URL: extraction only
runs when the entry was recorded and the screenshot did not raise. -/
def mainStepNav (o : String → MainOutcome) (url : String) : List NavItem :=
  match o url with
  | .exn _ => []
  | .ok f _ shot q =>
      if strHasSub f.toLower "login" then []
      else
        match shot with
        | .error _ => []
        | .ok _ => extract_navigation_items q

/-- One category of the hard-coded B2B SaaS admin-requirement catalogue of
infer_admin_requirements. -/
structure AdminFeatureCat : Type where
  category : String
  features : List String
deriving DecidableEq, Repr

/-- The constant admin-requirement catalogue installed by
infer_admin_requirements. -/
def admin_features_std : List AdminFeatureCat :=
  [{ category := "User Management"
     features := ["User list with search/filter", "User role management",
       "User activity logs", "Bulk user operations", "User invitation system"] },
   { category := "Company/Tenant Management"
     features := ["Company profiles", "Subscription management",
       "Usage analytics per tenant", "Custom branding controls",
       "Data isolation monitoring"] },
   { category := "Assessment Management"
     features := ["Assessment template library", "Custom assessment creation",
       "Performance analytics", "Candidate pipeline view",
       "Assessment results dashboard"] },
   { category := "System Administration"
     features := ["System health monitoring", "Error logs and alerts",
       "API usage statistics", "Security audit logs",
       "Backup and restore tools"] },
   { category := "Analytics & Reporting"
     features := ["Usage metrics dashboard", "Revenue analytics",
       "User engagement metrics", "Custom report builder",
       "Data export capabilities"] }]

/-- The app_analysis dict of analyze_main_application; inferred_features is
initialized and never written, and missing_admin_features is installed by
infer_admin_requirements at the end of the stage. -/
structure AppAnalysis : Type where
  accessible_pages : List AccessiblePage
  navigation_structure : List NavItem
  missing_admin_features : List AdminFeatureCat

/-- Embedding of analyze_main_application: the loop over urls_to_check
extends the two result lists per iteration, each per-URL failure being
caught by the per-URL try/except (and recorded nowhere), and the constant
requirement catalogue is installed afterwards. -/
def analyze_main_application (o : String → MainOutcome) : AppAnalysis :=
  let st := urls_to_check.foldl
    (fun (acc : List AccessiblePage × List NavItem) url =>
      (acc.1 ++ mainStepEntries o url, acc.2 ++ mainStepNav o url))
    ([], [])
  { accessible_pages := st.1, navigation_structure := st.2
    missing_admin_features := admin_features_std }

/-- Events of one iteration of the analyze_main_application loop. -/
def mainUrlEvents (o : String → MainOutcome) (url : String) : List Event :=
  match o url with
  | .exn _ => [.navigate url]
  | .ok f _ shot _ =>
      if strHasSub f.toLower "login" then [.navigate url]
      else
        [.navigate url, .record url]
          ++ (match shot with
              | .error _ => []
              | .ok _ => [.screenshot url, .evaluate url])

/-- Event trace of the analyze_main_application loop, accumulated exactly
like the for loop. -/
def mainLoopTrace (o : String → MainOutcome) : List Event :=
  urls_to_check.foldl (fun tr url => tr ++ mainUrlEvents o url) []

/-- The fixed URL list of check_public_pages. -/
def public_urls : List String :=
  ["https://ellaai-platform-prod.web.app/about",
   "https://ellaai-platform-prod.web.app/features",
   "https://ellaai-platform-prod.web.app/pricing",
   "https://ellaai-platform-prod.web.app/contact",
   "https://ellaai-platform-prod.web.app/help",
   "https://ellaai-platform-prod.web.app/docs"]

/-- Outcome of one iteration of the check_public_pages loop: either goto or
the url check raised, or the final URL and title were read, with the later
body inner_text read still able to raise on its own. -/
inductive PublicOutcome : Type where
  | exn (msg : String) : PublicOutcome
  | ok (finalUrl : String) (title : String) (body : Except String String) :
      PublicOutcome

/-- One accessible_content entry of check_public_pages: the success dict
(url, title, accessible true) or the except-branch dict (url, accessible
false, error). -/
inductive PubEntry : Type where
  | accessible (url : String) (title : String) : PubEntry
  | failed (url : String) (error : String) : PubEntry
deriving DecidableEq, Repr

/-- URL a public-page entry identifies. -/
def PubEntry.urlOf : PubEntry → String
  | .accessible u _ => u
  | .failed u _ => u

/-- One platform_insights entry of check_public_pages. -/
structure Insight : Type where
  url : String
  insight : String
deriving DecidableEq, Repr

/-- The accessible_content entries contributed by one URL.  A probe that
raises before the login check yields one error entry; a successful probe
redirected to login yields none; a successful probe whose body read also
succeeds yields one; and a successful probe whose body read raises after the
append yields two (the success entry, then the except-branch error entry). -/
def pubEntriesFor (o : String → PublicOutcome) (url : String) : List PubEntry :=
  match o url with
  | .exn m => [.failed url m]
  | .ok f t body =>
      if strHasSub f.toLower "login" then []
      else
        match body with
        | .error m => [.accessible url t, .failed url m]
        | .ok _ => [.accessible url t]

/-- The platform_insights entries contributed by one URL: recorded when the
first thousand characters of the body mention admin or manage. -/
def pubInsightsFor (o : String → PublicOutcome) (url : String) : List Insight :=
  match o url with
  | .exn _ => []
  | .ok f _ body =>
      if strHasSub f.toLower "login" then []
      else
        match body with
        | .error _ => []
        | .ok txt =>
            if strHasSub (strTake txt 1000).toLower "admin"
                || strHasSub (strTake txt 1000).toLower "manage" then
              [{ url := url, insight := "Contains admin/management references" }]
            else []

/-- The public_analysis dict of check_public_pages. -/
structure PublicAnalysis : Type where
  accessible_content : List PubEntry
  platform_insights : List Insight

/-- Embedding of check_public_pages: the loop over public_urls extends the
two result lists per iteration. -/
def check_public_pages (o : String → PublicOutcome) : PublicAnalysis :=
  let st := public_urls.foldl
    (fun (acc : List PubEntry × List Insight) url =>
      (acc.1 ++ pubEntriesFor o url, acc.2 ++ pubInsightsFor o url))
    ([], [])
  { accessible_content := st.1, platform_insights := st.2 }

/-- The four-priority recommendations dict of generate_recommendations
(keys critical, high_priority, medium_priority, low_priority). -/
structure RecMap : Type where
  critical : List String
  high_priority : List String
  medium_priority : List String
  low_priority : List String
deriving DecidableEq, Repr

/-- The recommendations dict returned by generate_recommendations: a fixed
four-priority mapping of literal strings, taking no input at all. -/
def generate_recommendations : RecMap :=
  ⟨["Implement comprehensive user management dashboard with search, filter, and bulk operations",
    "Add system health monitoring and error alerting for proactive issue resolution",
    "Create audit logging system for compliance and security tracking",
    "Develop role-based access control (RBAC) interface for permission management",
    "Build company/tenant management system with usage analytics"],
   ["Add assessment management dashboard with performance analytics",
    "Implement API usage monitoring and rate limiting controls",
    "Create automated backup and disaster recovery management",
    "Build custom reporting and data export capabilities",
    "Add multi-factor authentication (MFA) and enterprise SSO support"],
   ["Develop email template management for automated communications",
    "Create webhook configuration interface for integrations",
    "Add user activity tracking and engagement metrics",
    "Implement custom branding controls for white-label customers",
    "Build notification center for system alerts and updates"],
   ["Add dark mode support for admin interface",
    "Create mobile-responsive admin dashboard",
    "Implement advanced search with faceted filtering",
    "Add data visualization widgets for KPI monitoring",
    "Create onboarding flow for new admin users"]⟩

/-- The login page URL probed by analyze_login_page. -/
def login_url : String := "https://ellaai-platform-prod.web.app/login"

/-- Environment of one run of analyze_platform: the browser acquisition
(launch, new_context, new_page, which precede the try block), the login-page
probe outcome, the per-URL outcomes of the two loops, and the report file
write. -/
structure PlatEnv : Type where
  launch : Except String Unit
  loginObs : Except String LoginObs
  mainObs : String → MainOutcome
  pubObs : String → PublicOutcome
  writeOk : Except String Unit

/-- Embedding of analyze_login_page: it has no try/except of its own, so a
probing failure is its result. -/
def analyze_login_page (env : PlatEnv) : Except String LoginAnalysis :=
  env.loginObs.map mkLoginAnalysis

/-- State of the analysis_results dict as a run of analyze_platform leaves
it: each stage slot is none while the stage has not (or never) run, and
reportWritten says whether the JSON dump completed. -/
structure RunResults : Type where
  login_page : Option LoginAnalysis
  main_application : Option AppAnalysis
  public_pages : Option PublicAnalysis
  reportWritten : Bool

/-- The analysis_results dict as initialized at the top of the try block. -/
def initRunResults : RunResults :=
  { login_page := none, main_application := none, public_pages := none
    reportWritten := false }

/-- Embedding of the body of the try block of analyze_platform: the four
steps run in order; the first exception (the login stage propagates its
failures, generate_report can fail writing the file) is caught by the
enclosing except handler, leaving the results accumulated so far. -/
def pipelineStages (env : PlatEnv) : RunResults × Option String :=
  match analyze_login_page env with
  | .error m => (initRunResults, some m)
  | .ok la =>
      let app := analyze_main_application env.mainObs
      let pub := check_public_pages env.pubObs
      match env.writeOk with
      | .error m =>
          ({ login_page := some la, main_application := some app
             public_pages := some pub, reportWritten := false }, some m)
      | .ok _ =>
          ({ login_page := some la, main_application := some app
             public_pages := some pub, reportWritten := true }, none)

/-- Events of the check_public_pages loop. -/
def pubLoopTrace : List Event :=
  public_urls.map (fun u => .navigate u)

/-- Events of the try-block body of analyze_platform; when the login stage
raises, the later stages never run. -/
def platStageEvents (env : PlatEnv) : List Event :=
  match env.loginObs with
  | .error _ => [.navigate login_url]
  | .ok _ =>
      [.navigate login_url, .screenshot login_url]
        ++ mainLoopTrace env.mainObs ++ pubLoopTrace ++ [.serializeReport]

/-- Result of one run of analyze_platform: process exit code, emitted event
trace, and the final state of the results dict. -/
structure PlatRun : Type where
  exitCode : Nat
  events : List Event
  results : RunResults

/-- Embedding of analyze_platform: a launch failure propagates out of the
script (non-zero exit, no close since the try/finally was never entered);
after acquisition, every exception of the try body is caught and only
printed, the finally block closes the browser, and the process exits 0. -/
def analyze_platform (env : PlatEnv) : PlatRun :=
  match env.launch with
  | .error _ =>
      { exitCode := 1, events := [.launchFailed], results := initRunResults }
  | .ok _ =>
      { exitCode := 0
        events := [.launch] ++ platStageEvents env ++ [.close]
        results := (pipelineStages env).1 }

/-- The report dict serialized by generate_report after a completed run: the
three stage results plus the recommendations slot, which keeps its initial
empty lists (generate_recommendations output is only printed). -/
structure Report : Type where
  login_page : LoginAnalysis
  main_application : AppAnalysis
  recommendations : RecMap
  public_pages : PublicAnalysis

/-- The recommendations printed by generate_report for a given results dict:
the call passes no observation at all, so this is generate_recommendations
regardless of the results. -/
def reportRecommendations (_ : RunResults) : RecMap :=
  generate_recommendations

end Platform

namespace AdminScript

/-! Embedding of frontend/analyze_admin.py. -/

/-- One navigation link element found by analyze_navigation; reading its
inner text and href may raise, which the per-element try/except observes. -/
structure LinkElem : Type where
  fetch : Except String (String × Option String)

/-- Items one link element contributes: nothing when its text or href read
raises (except: continue) or when its stripped text is empty or 50
characters or longer; otherwise the stripped text with a missing href shown
as N/A. -/
def navStep (l : LinkElem) : List (String × String) :=
  match l.fetch with
  | .error _ => []
  | .ok td =>
      let t := pyStrip td.1
      if t != "" && t.length < 50 then [(t, td.2.getD "N/A")] else []

/-- Embedding of analyze_navigation: the first twenty link elements are
visited in order, each appending its contribution. -/
def analyze_navigation (links : List LinkElem) : List (String × String) :=
  (links.take 20).foldl (fun acc l => acc ++ navStep l) []

/-- The admin URL probed by analyze_ellaai_admin. -/
def admin_url : String := "https://ellaai-platform-prod.web.app/admin"

/-- Page observations of one run of analyze_ellaai_admin when navigation
succeeds. -/
structure AdminScriptObs : Type where
  title : String
  url : String
  links : List LinkElem

/-- Environment of one run of analyze_ellaai_admin. -/
structure AdminScriptEnv : Type where
  launch : Except String Unit
  nav : Except String AdminScriptObs

/-- Embedding of analyze_ellaai_admin: after browser acquisition the try
block navigates and analyzes (the except branch takes an error screenshot
instead), and the finally block closes the browser on every such path. -/
def analyze_ellaai_admin (env : AdminScriptEnv) :
    List Event × List (String × String) :=
  match env.launch with
  | .error _ => ([.launchFailed], [])
  | .ok _ =>
      match env.nav with
      | .error _ =>
          ([.launch, .navigate admin_url, .screenshot "error_page",
            .close], [])
      | .ok o =>
          if strHasSub o.url.toLower "login" || strHasSub o.url.toLower "auth" then
            ([.launch, .navigate admin_url, .screenshot "admin_homepage",
              .screenshot "login_page", .close], [])
          else
            ([.launch, .navigate admin_url, .screenshot "admin_homepage",
              .close], analyze_navigation o.links)

end AdminScript

/-- Strict decoder for a list of values. -/
def decodeList {α : Type} (g : JVal → Option α) : List JVal → Option (List α)
  | [] => some []
  | v :: vs =>
      match g v with
      | none => none
      | some a =>
          match decodeList g vs with
          | none => none
          | some tl => some (a :: tl)

/-- Decoding the encoding of a list recovers it, given pointwise recovery. -/
theorem decodeList_map {α : Type} (f : α → JVal) (g : JVal → Option α)
    (h : ∀ x, g (f x) = some x) (xs : List α) :
    decodeList g (xs.map f) = some xs := by
  induction xs with
  | nil => rfl
  | cons a t ih => simp [decodeList, h, ih]

/-- Strict decoder for an object used as a string-keyed mapping. -/
def decodeAssoc {α : Type} (g : JVal → Option α) :
    List (String × JVal) → Option (List (String × α))
  | [] => some []
  | kv :: vs =>
      match g kv.2 with
      | none => none
      | some a =>
          match decodeAssoc g vs with
          | none => none
          | some tl => some ((kv.1, a) :: tl)

/-- Decoding the encoding of a mapping recovers it, given pointwise
recovery of the values. -/
theorem decodeAssoc_map {α : Type} (f : α → JVal) (g : JVal → Option α)
    (h : ∀ x, g (f x) = some x) (xs : List (String × α)) :
    decodeAssoc g (xs.map (fun kv => (kv.1, f kv.2))) = some xs := by
  induction xs with
  | nil => rfl
  | cons a t ih => simp [decodeAssoc, h, ih]

/-- Encoding of an optional string (a possibly undefined JS property). -/
def jOptStr : Option String → JVal
  | none => .null
  | some s => .str s

/-- Decoder matching jOptStr. -/
def dOptStr : JVal → Option (Option String)
  | .null => some none
  | .str s => some (some s)
  | _ => none

/-- Decoder for a string value. -/
def dStr : JVal → Option String
  | .str s => some s
  | _ => none

/-- Encoding of a natural-number count or status. -/
def jNat (n : Nat) : JVal := .num (Int.ofNat n)

/-- Decoder matching jNat. -/
def dNat : JVal → Option Nat
  | .num (.ofNat n) => some n
  | _ => none

/-- Decoder for a boolean value. -/
def dBool : JVal → Option Bool
  | .bool b => some b
  | _ => none

/-- Decoder for an integer value. -/
def dInt : JVal → Option Int
  | .num n => some n
  | _ => none

/-- Decoder for an array of values. -/
def dArr {α : Type} (g : JVal → Option α) : JVal → Option (List α)
  | .arr xs => decodeList g xs
  | _ => none

/-- Decoder for an object used as a mapping. -/
def dObj {α : Type} (g : JVal → Option α) : JVal → Option (List (String × α))
  | .obj fs => decodeAssoc g fs
  | _ => none

/-- Sequential field reader: consumes the next field of an object body when
its key matches, decoding its value. -/
def fieldD {α : Type} (k : String) (g : JVal → Option α)
    (fs : List (String × JVal)) : Option (α × List (String × JVal)) :=
  match fs with
  | kv :: rest => if kv.1 = k then (g kv.2).map (fun a => (a, rest)) else none
  | [] => none

/-- Reading an encoded field at the head of the remaining fields recovers
the value and the tail. -/
theorem fieldD_cons {α : Type} (k : String) (f : α → JVal) (g : JVal → Option α)
    (h : ∀ x, g (f x) = some x) (x : α) (rest : List (String × JVal)) :
    fieldD k g ((k, f x) :: rest) = some (x, rest) := by
  simp [fieldD, h]

namespace Comp

/-- JSON encoding of one element-style record. -/
def ElemStyle.toJson (e : ElemStyle) : JVal :=
  .obj [("backgroundColor", .str e.backgroundColor), ("color", .str e.color),
    ("fontSize", .str e.fontSize), ("fontFamily", .str e.fontFamily),
    ("fontWeight", .str e.fontWeight), ("borderRadius", .str e.borderRadius),
    ("padding", .str e.padding), ("margin", .str e.margin),
    ("boxShadow", .str e.boxShadow), ("border", .str e.border)]

/-- Strict JSON decoder for an element-style record. -/
def ElemStyle.fromJson : JVal → Option ElemStyle
  | .obj [("backgroundColor", .str bg), ("color", .str c),
      ("fontSize", .str fs), ("fontFamily", .str ff),
      ("fontWeight", .str fw), ("borderRadius", .str br),
      ("padding", .str p), ("margin", .str m),
      ("boxShadow", .str bs), ("border", .str b)] =>
      some ⟨bg, c, fs, ff, fw, br, p, m, bs, b⟩
  | _ => none

theorem ElemStyle_rt (e : ElemStyle) : ElemStyle.fromJson e.toJson = some e := by
  cases e
  rfl

/-- JSON encoding of the design tokens; the muiTheme key appears only when
the page exposed a theme. -/
def DesignTokens.toJson (d : DesignTokens) : JVal :=
  .obj ([("cssVariables", .obj (d.cssVariables.map (fun kv => (kv.1, .str kv.2))))]
    ++ (match d.muiTheme with
        | none => []
        | some t => [("muiTheme", t)])
    ++ [("elementStyles",
          .obj (d.elementStyles.map (fun kv => (kv.1, ElemStyle.toJson kv.2))))])

/-- Strict JSON decoder for the design tokens. -/
def DesignTokens.fromJson : JVal → Option DesignTokens
  | .obj [("cssVariables", .obj cvs), ("elementStyles", .obj els)] =>
      match decodeAssoc dStr cvs, decodeAssoc ElemStyle.fromJson els with
      | some c, some e => some ⟨c, none, e⟩
      | _, _ => none
  | .obj [("cssVariables", .obj cvs), ("muiTheme", t), ("elementStyles", .obj els)] =>
      match decodeAssoc dStr cvs, decodeAssoc ElemStyle.fromJson els with
      | some c, some e => some ⟨c, some t, e⟩
      | _, _ => none
  | _ => none

theorem DesignTokens_rt (d : DesignTokens) :
    DesignTokens.fromJson d.toJson = some d := by
  cases d with
  | mk cvs mui els =>
      have h1 := decodeAssoc_map JVal.str dStr (fun s => rfl) cvs
      have h2 := decodeAssoc_map ElemStyle.toJson ElemStyle.fromJson
        ElemStyle_rt els
      cases mui with
      | none => simp [DesignTokens.toJson, DesignTokens.fromJson, h1, h2]
      | some t => simp [DesignTokens.toJson, DesignTokens.fromJson, h1, h2]

/-- JSON encoding of a form-field record. -/
def FormField.toJson (f : FormField) : JVal :=
  .obj [("type", .str f.ftype), ("name", .str f.name),
    ("placeholder", jOptStr f.placeholder), ("required", .bool f.required)]

/-- Strict JSON decoder for a form-field record. -/
def FormField.fromJson : JVal → Option FormField
  | .obj [("type", .str t), ("name", .str n), ("placeholder", p),
      ("required", .bool r)] =>
      match dOptStr p with
      | some ph => some ⟨t, n, ph, r⟩
      | none => none
  | _ => none

theorem FormField_rt (f : FormField) : FormField.fromJson f.toJson = some f := by
  cases f with
  | mk t n p r => cases p <;> rfl

/-- JSON encoding of an action-button record. -/
def ActionButton.toJson (b : ActionButton) : JVal :=
  .obj [("text", .str b.text), ("disabled", .bool b.disabled),
    ("type", jOptStr b.btype)]

/-- Strict JSON decoder for an action-button record. -/
def ActionButton.fromJson : JVal → Option ActionButton
  | .obj [("text", .str t), ("disabled", .bool d), ("type", ty)] =>
      match dOptStr ty with
      | some bt => some ⟨t, d, bt⟩
      | none => none
  | _ => none

theorem ActionButton_rt (b : ActionButton) :
    ActionButton.fromJson b.toJson = some b := by
  cases b with
  | mk t d ty => cases ty <;> rfl

/-- JSON encoding of a page_analysis dict. -/
def PageAnalysis.toJson (pa : PageAnalysis) : JVal :=
  .obj [("title", .str pa.title), ("url", .str pa.url),
    ("hasContent", .bool pa.hasContent), ("hasForm", .bool pa.hasForm),
    ("hasTable", .bool pa.hasTable), ("hasNavigation", .bool pa.hasNavigation),
    ("hasCards", .bool pa.hasCards),
    ("hasLoadingIndicators", .bool pa.hasLoadingIndicators),
    ("errorMessages", .arr (pa.errorMessages.map JVal.str)),
    ("formFields", .arr (pa.formFields.map FormField.toJson)),
    ("actionButtons", .arr (pa.actionButtons.map ActionButton.toJson))]

/-- Strict JSON decoder for a page_analysis dict, reading the eleven fields
in order. -/
def PageAnalysis.fromJson (v : JVal) : Option PageAnalysis :=
  match v with
  | .obj fs =>
      (fieldD "title" dStr fs).bind fun p1 =>
      (fieldD "url" dStr p1.2).bind fun p2 =>
      (fieldD "hasContent" dBool p2.2).bind fun p3 =>
      (fieldD "hasForm" dBool p3.2).bind fun p4 =>
      (fieldD "hasTable" dBool p4.2).bind fun p5 =>
      (fieldD "hasNavigation" dBool p5.2).bind fun p6 =>
      (fieldD "hasCards" dBool p6.2).bind fun p7 =>
      (fieldD "hasLoadingIndicators" dBool p7.2).bind fun p8 =>
      (fieldD "errorMessages" (dArr dStr) p8.2).bind fun p9 =>
      (fieldD "formFields" (dArr FormField.fromJson) p9.2).bind fun p10 =>
      (fieldD "actionButtons" (dArr ActionButton.fromJson) p10.2).bind fun p11 =>
      match p11.2 with
      | [] => some ⟨p1.1, p2.1, p3.1, p4.1, p5.1, p6.1, p7.1, p8.1, p9.1,
          p10.1, p11.1⟩
      | _ => none
  | _ => none

set_option maxHeartbeats 1600000 in
theorem PageAnalysis_rt (pa : PageAnalysis) :
    PageAnalysis.fromJson pa.toJson = some pa := by
  cases pa with
  | mk t u hc hf ht hn hca hl ems ffs abs =>
      have h1 : ∀ xs : List String, dArr dStr (.arr (xs.map JVal.str)) = some xs :=
        fun xs => decodeList_map JVal.str dStr (fun s => rfl) xs
      have h2 : ∀ xs : List FormField,
          dArr FormField.fromJson (.arr (xs.map FormField.toJson)) = some xs :=
        fun xs => decodeList_map _ _ FormField_rt xs
      have h3 : ∀ xs : List ActionButton,
          dArr ActionButton.fromJson (.arr (xs.map ActionButton.toJson)) = some xs :=
        fun xs => decodeList_map _ _ ActionButton_rt xs
      simp [PageAnalysis.toJson, PageAnalysis.fromJson, fieldD, dStr, dBool,
        h1, h2, h3]

/-- JSON encoding of a functionality-test dict; the required_fields slot is
the initial empty list until the count is assigned. -/
def FunctionalityTest.toJson (ft : FunctionalityTest) : JVal :=
  .obj [("has_validation", .bool ft.has_validation),
    ("required_fields",
      match ft.required_fields with
      | none => .arr []
      | some n => jNat n),
    ("submit_test", .str ft.submit_test),
    ("api_connectivity", .str ft.api_connectivity)]

/-- Strict JSON decoder for a functionality-test dict. -/
def FunctionalityTest.fromJson : JVal → Option FunctionalityTest
  | .obj [("has_validation", .bool hv), ("required_fields", rf),
      ("submit_test", .str st), ("api_connectivity", .str ac)] =>
      match rf with
      | .arr [] => some ⟨hv, none, st, ac⟩
      | .num (.ofNat n) => some ⟨hv, some n, st, ac⟩
      | _ => none
  | _ => none

theorem FunctionalityTest_rt (ft : FunctionalityTest) :
    FunctionalityTest.fromJson ft.toJson = some ft := by
  cases ft with
  | mk hv rf st ac => cases rf <;> rfl

/-- Encoding of the functionality_test slot: the initial empty dict or a
full functionality-test dict. -/
def jOptFt : Option FunctionalityTest → JVal
  | none => .obj []
  | some f => f.toJson

/-- JSON encoding of one pages entry: the success dict written at the end of
the try block, or the failure dict written by the except branch. -/
def PageEntry.toJson : PageEntry → JVal
  | .success shot st isErr pa ft dt =>
      .obj [("screenshot_path", .str shot), ("status_code", jNat st),
        ("is_error", .bool isErr), ("page_analysis", pa.toJson),
        ("functionality_test", jOptFt ft),
        ("design_tokens", dt.toJson)]
  | .failed m => .obj [("error", .str m), ("status", .str "failed")]

/-- Decoder for the functionality_test slot: the empty dict or a full
functionality-test dict. -/
def dOptFt : JVal → Option (Option FunctionalityTest)
  | .obj [] => some none
  | v => (FunctionalityTest.fromJson v).map some

/-- Strict JSON decoder for a pages entry. -/
def PageEntry.fromJson (v : JVal) : Option PageEntry :=
  match v with
  | .obj [(k1, .str m), (k2, .str st)] =>
      if k1 = "error" ∧ k2 = "status" ∧ st = "failed" then some (.failed m)
      else none
  | .obj fs =>
      (fieldD "screenshot_path" dStr fs).bind fun p1 =>
      (fieldD "status_code" dNat p1.2).bind fun p2 =>
      (fieldD "is_error" dBool p2.2).bind fun p3 =>
      (fieldD "page_analysis" PageAnalysis.fromJson p3.2).bind fun p4 =>
      (fieldD "functionality_test" dOptFt p4.2).bind fun p5 =>
      (fieldD "design_tokens" DesignTokens.fromJson p5.2).bind fun p6 =>
      match p6.2 with
      | [] => some (.success p1.1 p2.1 p3.1 p4.1 p5.1 p6.1)
      | _ => none
  | _ => none

/-- Decoding the functionality_test encoding recovers it. -/
theorem dOptFt_rt (ft : Option FunctionalityTest) :
    dOptFt (jOptFt ft) = some ft := by
  cases ft with
  | none => rfl
  | some f =>
      cases f with
      | mk hv rf st ac => cases rf <;> rfl

set_option maxHeartbeats 1600000 in
theorem PageEntry_rt (e : PageEntry) : PageEntry.fromJson e.toJson = some e := by
  cases e with
  | failed m => rfl
  | success shot st isErr pa ft dt =>
      have h4 := PageAnalysis_rt pa
      have h5 := dOptFt_rt ft
      have h6 := DesignTokens_rt dt
      simp only [PageEntry.toJson, PageEntry.fromJson]
      simp [fieldD, dStr, dNat, jNat, dBool, h4, h5, h6]

/-- JSON encoding of the admin_analysis dict; the three slots that are never
written reappear as their initial empty values. -/
def AdminAnalysis.toJson (a : AdminAnalysis) : JVal :=
  .obj [("pages", .obj (a.pages.map (fun kv => (kv.1, kv.2.toJson)))),
    ("navigation_structure", .obj []), ("connectivity_issues", .arr []),
    ("functionality_tests", .obj [])]

/-- Strict JSON decoder for the admin_analysis dict. -/
def AdminAnalysis.fromJson (v : JVal) : Option AdminAnalysis :=
  match v with
  | .obj fs =>
      (fieldD "pages" (dObj PageEntry.fromJson) fs).bind fun p1 =>
      match p1.2 with
      | [(k2, .obj []), (k3, .arr []), (k4, .obj [])] =>
          if k2 = "navigation_structure" ∧ k3 = "connectivity_issues"
              ∧ k4 = "functionality_tests" then
            some ⟨p1.1⟩
          else none
      | _ => none
  | _ => none

theorem AdminAnalysis_rt (a : AdminAnalysis) :
    AdminAnalysis.fromJson a.toJson = some a := by
  cases a with
  | mk pages =>
      have h := decodeAssoc_map PageEntry.toJson PageEntry.fromJson
        PageEntry_rt pages
      simp [AdminAnalysis.toJson, AdminAnalysis.fromJson, fieldD, dObj, h]

/-- JSON encoding of the page_structure dict. -/
def PageStructure.toJson (p : PageStructure) : JVal :=
  .obj [("title", .str p.title), ("url", .str p.url),
    ("bodyClasses", .str p.bodyClasses),
    ("hasNavigation", .bool p.hasNavigation), ("hasCards", jNat p.hasCards),
    ("hasButtons", jNat p.hasButtons), ("colorScheme", .str p.colorScheme),
    ("mainContentSelector", .bool p.mainContentSelector)]

/-- Strict JSON decoder for the page_structure dict. -/
def PageStructure.fromJson : JVal → Option PageStructure
  | .obj [("title", .str t), ("url", .str u), ("bodyClasses", .str bc),
      ("hasNavigation", .bool hn), ("hasCards", .num (.ofNat hc)),
      ("hasButtons", .num (.ofNat hb)), ("colorScheme", .str cs),
      ("mainContentSelector", .bool mc)] =>
      some ⟨t, u, bc, hn, hc, hb, cs, mc⟩
  | _ => none

theorem PageStructure_rt (p : PageStructure) :
    PageStructure.fromJson p.toJson = some p := by
  cases p
  rfl

/-- JSON encoding of the main_app dict. -/
def MainApp.toJson (m : MainApp) : JVal :=
  .obj [("screenshot_path", .str m.screenshot_path),
    ("page_structure", m.page_structure.toJson),
    ("design_tokens", m.design_tokens.toJson),
    ("is_login_page", .bool m.is_login_page),
    ("timestamp", .str m.timestamp)]

/-- Strict JSON decoder for the main_app dict. -/
def MainApp.fromJson (v : JVal) : Option MainApp :=
  match v with
  | .obj fs =>
      (fieldD "screenshot_path" dStr fs).bind fun p1 =>
      (fieldD "page_structure" PageStructure.fromJson p1.2).bind fun p2 =>
      (fieldD "design_tokens" DesignTokens.fromJson p2.2).bind fun p3 =>
      (fieldD "is_login_page" dBool p3.2).bind fun p4 =>
      (fieldD "timestamp" dStr p4.2).bind fun p5 =>
      match p5.2 with
      | [] => some ⟨p1.1, p2.1, p3.1, p4.1, p5.1⟩
      | _ => none
  | _ => none

theorem MainApp_rt (m : MainApp) : MainApp.fromJson m.toJson = some m := by
  cases m
  simp [MainApp.toJson, MainApp.fromJson, fieldD, dStr, dBool,
    PageStructure_rt, DesignTokens_rt]

/-- JSON encoding of one monitored network request; the status and
response_time keys exist only when a response was matched. -/
def NetReq.toJson (r : NetReq) : JVal :=
  .obj ([("url", .str r.url), ("method", .str r.method),
    ("timestamp", .str r.timestamp)]
    ++ (match r.response with
        | none => []
        | some sr => [("status", .num sr.1), ("response_time", .str sr.2)]))

/-- Strict JSON decoder for one monitored network request. -/
def NetReq.fromJson : JVal → Option NetReq
  | .obj [("url", .str u), ("method", .str m), ("timestamp", .str t)] =>
      some ⟨u, m, t, none⟩
  | .obj [("url", .str u), ("method", .str m), ("timestamp", .str t),
      ("status", .num st), ("response_time", .str rt)] =>
      some ⟨u, m, t, some (st, rt)⟩
  | _ => none

theorem NetReq_rt (r : NetReq) : NetReq.fromJson r.toJson = some r := by
  cases r with
  | mk u m t resp => cases resp <;> rfl

/-- JSON encoding of the connectivity_results dict. -/
def Connectivity.toJson (c : Connectivity) : JVal :=
  .obj [("firebase_auth", .str c.firebase_auth),
    ("api_calls", .arr (c.api_calls.map NetReq.toJson)),
    ("errors", .arr (c.errors.map JVal.str)),
    ("loading_times", .obj [("admin_page", .num c.loadTimeAdmin)])]

/-- Strict JSON decoder for the connectivity_results dict. -/
def Connectivity.fromJson (v : JVal) : Option Connectivity :=
  match v with
  | .obj fs =>
      (fieldD "firebase_auth" dStr fs).bind fun p1 =>
      (fieldD "api_calls" (dArr NetReq.fromJson) p1.2).bind fun p2 =>
      (fieldD "errors" (dArr dStr) p2.2).bind fun p3 =>
      match p3.2 with
      | [(k, .obj [(k2, .num t)])] =>
          if k = "loading_times" ∧ k2 = "admin_page" then
            some ⟨p1.1, p2.1, p3.1, t⟩
          else none
      | _ => none
  | _ => none

theorem Connectivity_rt (c : Connectivity) :
    Connectivity.fromJson c.toJson = some c := by
  cases c
  have h1 := decodeList_map NetReq.toJson NetReq.fromJson NetReq_rt
  have h2 := decodeList_map JVal.str dStr (fun s => rfl)
  simp [Connectivity.toJson, Connectivity.fromJson, fieldD, dStr, dArr, h1, h2]

/-- JSON encoding of the per-variable difference record. -/
def VarDiff.toJson (d : VarDiff) : JVal :=
  .obj [("main_app", .str d.main_app), ("admin_page", .str d.admin_page)]

/-- Strict JSON decoder for the per-variable difference record. -/
def VarDiff.fromJson : JVal → Option VarDiff
  | .obj [("main_app", .str m), ("admin_page", .str a)] => some ⟨m, a⟩
  | _ => none

theorem VarDiff_rt (d : VarDiff) : VarDiff.fromJson d.toJson = some d := by
  cases d
  rfl

/-- JSON encoding of one design-gap record; its type slot is the constant
css_variables marker. -/
def DesignGap.toJson (g : DesignGap) : JVal :=
  .obj [("page", .str g.page), ("type", .str "css_variables"),
    ("missing_variables", .arr (g.missing_variables.map JVal.str)),
    ("different_values",
      .obj (g.different_values.map (fun kv => (kv.1, kv.2.toJson))))]

/-- Strict JSON decoder for one design-gap record. -/
def DesignGap.fromJson (v : JVal) : Option DesignGap :=
  match v with
  | .obj fs =>
      (fieldD "page" dStr fs).bind fun p1 =>
      (fieldD "type" dStr p1.2).bind fun p2 =>
      (fieldD "missing_variables" (dArr dStr) p2.2).bind fun p3 =>
      (fieldD "different_values" (dObj VarDiff.fromJson) p3.2).bind fun p4 =>
      match p4.2 with
      | [] => if p2.1 = "css_variables" then some ⟨p1.1, p3.1, p4.1⟩ else none
      | _ => none
  | _ => none

theorem DesignGap_rt (g : DesignGap) : DesignGap.fromJson g.toJson = some g := by
  cases g
  have h1 := decodeList_map JVal.str dStr (fun s => rfl)
  have h2 := decodeAssoc_map VarDiff.toJson VarDiff.fromJson VarDiff_rt
  simp [DesignGap.toJson, DesignGap.fromJson, fieldD, dStr, dArr, dObj, h1, h2]

/-- JSON encoding of the full analysis_results dict of the comprehensive
script; the never-written design_analysis slot is its initial empty dict. -/
def AnalysisResults.toJson (r : AnalysisResults) : JVal :=
  .obj [("timestamp", .str r.timestamp), ("main_app", r.main_app.toJson),
    ("admin_interface", r.admin_interface.toJson),
    ("design_analysis", .obj []),
    ("service_connectivity", r.service_connectivity.toJson),
    ("design_gaps", .arr (r.design_gaps.map DesignGap.toJson))]

/-- Strict JSON decoder for the full analysis_results dict. -/
def AnalysisResults.fromJson (v : JVal) : Option AnalysisResults :=
  match v with
  | .obj fs =>
      (fieldD "timestamp" dStr fs).bind fun p1 =>
      (fieldD "main_app" MainApp.fromJson p1.2).bind fun p2 =>
      (fieldD "admin_interface" AdminAnalysis.fromJson p2.2).bind fun p3 =>
      (match p3.2 with
       | (k, .obj []) :: rest => if k = "design_analysis" then some rest else none
       | _ => none).bind fun rest =>
      (fieldD "service_connectivity" Connectivity.fromJson rest).bind fun p5 =>
      (fieldD "design_gaps" (dArr DesignGap.fromJson) p5.2).bind fun p6 =>
      match p6.2 with
      | [] => some ⟨p1.1, p2.1, p3.1, p5.1, p6.1⟩
      | _ => none
  | _ => none

theorem AnalysisResults_rt (r : AnalysisResults) :
    AnalysisResults.fromJson r.toJson = some r := by
  cases r
  have h1 := decodeList_map DesignGap.toJson DesignGap.fromJson DesignGap_rt
  simp [AnalysisResults.toJson, AnalysisResults.fromJson, fieldD, dStr, dArr,
    MainApp_rt, AdminAnalysis_rt, Connectivity_rt, h1]

end Comp

namespace Platform

/-- JSON encoding of the login_analysis dict. -/
def LoginAnalysis.toJson (l : LoginAnalysis) : JVal :=
  .obj [("security_features", .arr (l.security_features.map JVal.str)),
    ("ux_issues", .arr (l.ux_issues.map JVal.str)),
    ("missing_features", .arr (l.missing_features.map JVal.str)),
    ("strengths", .arr (l.strengths.map JVal.str))]

/-- Strict JSON decoder for the login_analysis dict. -/
def LoginAnalysis.fromJson (v : JVal) : Option LoginAnalysis :=
  match v with
  | .obj fs =>
      (fieldD "security_features" (dArr dStr) fs).bind fun p1 =>
      (fieldD "ux_issues" (dArr dStr) p1.2).bind fun p2 =>
      (fieldD "missing_features" (dArr dStr) p2.2).bind fun p3 =>
      (fieldD "strengths" (dArr dStr) p3.2).bind fun p4 =>
      match p4.2 with
      | [] => some ⟨p1.1, p2.1, p3.1, p4.1⟩
      | _ => none
  | _ => none

theorem LoginAnalysis_rt (l : LoginAnalysis) :
    LoginAnalysis.fromJson l.toJson = some l := by
  cases l
  have h1 := decodeList_map JVal.str dStr (fun s => rfl)
  simp [LoginAnalysis.toJson, LoginAnalysis.fromJson, fieldD, dArr, h1]

/-- JSON encoding of one accessible_pages entry. -/
def AccessiblePage.toJson (a : AccessiblePage) : JVal :=
  .obj [("url", .str a.url), ("final_url", .str a.final_url),
    ("title", .str a.title)]

/-- Strict JSON decoder for one accessible_pages entry. -/
def AccessiblePage.fromJson : JVal → Option AccessiblePage
  | .obj [("url", .str u), ("final_url", .str f), ("title", .str t)] =>
      some ⟨u, f, t⟩
  | _ => none

theorem AccessiblePage_rt (a : AccessiblePage) :
    AccessiblePage.fromJson a.toJson = some a := by
  cases a
  rfl

/-- JSON encoding of one navigation item; a missing href attribute is null. -/
def NavItem.toJson (n : NavItem) : JVal :=
  .obj [("text", .str n.text), ("href", jOptStr n.href)]

/-- Strict JSON decoder for one navigation item. -/
def NavItem.fromJson : JVal → Option NavItem
  | .obj [("text", .str t), ("href", h)] =>
      match dOptStr h with
      | some hr => some ⟨t, hr⟩
      | none => none
  | _ => none

theorem NavItem_rt (n : NavItem) : NavItem.fromJson n.toJson = some n := by
  cases n with
  | mk t h => cases h <;> rfl

/-- JSON encoding of one admin-requirement category. -/
def AdminFeatureCat.toJson (c : AdminFeatureCat) : JVal :=
  .obj [("category", .str c.category),
    ("features", .arr (c.features.map JVal.str))]

/-- Strict JSON decoder for one admin-requirement category. -/
def AdminFeatureCat.fromJson (v : JVal) : Option AdminFeatureCat :=
  match v with
  | .obj fs =>
      (fieldD "category" dStr fs).bind fun p1 =>
      (fieldD "features" (dArr dStr) p1.2).bind fun p2 =>
      match p2.2 with
      | [] => some ⟨p1.1, p2.1⟩
      | _ => none
  | _ => none

theorem AdminFeatureCat_rt (c : AdminFeatureCat) :
    AdminFeatureCat.fromJson c.toJson = some c := by
  cases c
  have h1 := decodeList_map JVal.str dStr (fun s => rfl)
  simp [AdminFeatureCat.toJson, AdminFeatureCat.fromJson, fieldD, dStr, dArr, h1]

/-- JSON encoding of the app_analysis dict; the never-written
inferred_features slot is its initial empty list. -/
def AppAnalysis.toJson (a : AppAnalysis) : JVal :=
  .obj [("accessible_pages", .arr (a.accessible_pages.map AccessiblePage.toJson)),
    ("navigation_structure", .arr (a.navigation_structure.map NavItem.toJson)),
    ("inferred_features", .arr []),
    ("missing_admin_features",
      .arr (a.missing_admin_features.map AdminFeatureCat.toJson))]

/-- Strict JSON decoder for the app_analysis dict. -/
def AppAnalysis.fromJson (v : JVal) : Option AppAnalysis :=
  match v with
  | .obj fs =>
      (fieldD "accessible_pages" (dArr AccessiblePage.fromJson) fs).bind fun p1 =>
      (fieldD "navigation_structure" (dArr NavItem.fromJson) p1.2).bind fun p2 =>
      (match p2.2 with
       | (k, .arr []) :: rest => if k = "inferred_features" then some rest else none
       | _ => none).bind fun rest =>
      (fieldD "missing_admin_features" (dArr AdminFeatureCat.fromJson) rest).bind
        fun p4 =>
      match p4.2 with
      | [] => some ⟨p1.1, p2.1, p4.1⟩
      | _ => none
  | _ => none

theorem AppAnalysis_rt (a : AppAnalysis) :
    AppAnalysis.fromJson a.toJson = some a := by
  cases a
  have h1 := decodeList_map AccessiblePage.toJson AccessiblePage.fromJson
    AccessiblePage_rt
  have h2 := decodeList_map NavItem.toJson NavItem.fromJson NavItem_rt
  have h3 := decodeList_map AdminFeatureCat.toJson AdminFeatureCat.fromJson
    AdminFeatureCat_rt
  simp [AppAnalysis.toJson, AppAnalysis.fromJson, fieldD, dArr, h1, h2, h3]

/-- JSON encoding of one accessible_content entry: the success dict or the
except-branch dict, which have different key sets. -/
def PubEntry.toJson : PubEntry → JVal
  | .accessible u t =>
      .obj [("url", .str u), ("title", .str t), ("accessible", .bool true)]
  | .failed u m =>
      .obj [("url", .str u), ("accessible", .bool false), ("error", .str m)]

/-- Strict JSON decoder for one accessible_content entry. -/
def PubEntry.fromJson : JVal → Option PubEntry
  | .obj [("url", .str u), ("title", .str t), ("accessible", .bool true)] =>
      some (.accessible u t)
  | .obj [("url", .str u), ("accessible", .bool false), ("error", .str m)] =>
      some (.failed u m)
  | _ => none

theorem PubEntry_rt (e : PubEntry) : PubEntry.fromJson e.toJson = some e := by
  cases e <;> rfl

/-- JSON encoding of one platform_insights entry. -/
def Insight.toJson (i : Insight) : JVal :=
  .obj [("url", .str i.url), ("insight", .str i.insight)]

/-- Strict JSON decoder for one platform_insights entry. -/
def Insight.fromJson : JVal → Option Insight
  | .obj [("url", .str u), ("insight", .str s)] => some ⟨u, s⟩
  | _ => none

theorem Insight_rt (i : Insight) : Insight.fromJson i.toJson = some i := by
  cases i
  rfl

/-- JSON encoding of the public_analysis dict. -/
def PublicAnalysis.toJson (p : PublicAnalysis) : JVal :=
  .obj [("accessible_content", .arr (p.accessible_content.map PubEntry.toJson)),
    ("platform_insights", .arr (p.platform_insights.map Insight.toJson))]

/-- Strict JSON decoder for the public_analysis dict. -/
def PublicAnalysis.fromJson (v : JVal) : Option PublicAnalysis :=
  match v with
  | .obj fs =>
      (fieldD "accessible_content" (dArr PubEntry.fromJson) fs).bind fun p1 =>
      (fieldD "platform_insights" (dArr Insight.fromJson) p1.2).bind fun p2 =>
      match p2.2 with
      | [] => some ⟨p1.1, p2.1⟩
      | _ => none
  | _ => none

theorem PublicAnalysis_rt (p : PublicAnalysis) :
    PublicAnalysis.fromJson p.toJson = some p := by
  cases p
  have h1 := decodeList_map PubEntry.toJson PubEntry.fromJson PubEntry_rt
  have h2 := decodeList_map Insight.toJson Insight.fromJson Insight_rt
  simp [PublicAnalysis.toJson, PublicAnalysis.fromJson, fieldD, dArr, h1, h2]

/-- JSON encoding of the recommendations dict. -/
def RecMap.toJson (r : RecMap) : JVal :=
  .obj [("critical", .arr (r.critical.map JVal.str)),
    ("high_priority", .arr (r.high_priority.map JVal.str)),
    ("medium_priority", .arr (r.medium_priority.map JVal.str)),
    ("low_priority", .arr (r.low_priority.map JVal.str))]

/-- Strict JSON decoder for the recommendations dict. -/
def RecMap.fromJson (v : JVal) : Option RecMap :=
  match v with
  | .obj fs =>
      (fieldD "critical" (dArr dStr) fs).bind fun p1 =>
      (fieldD "high_priority" (dArr dStr) p1.2).bind fun p2 =>
      (fieldD "medium_priority" (dArr dStr) p2.2).bind fun p3 =>
      (fieldD "low_priority" (dArr dStr) p3.2).bind fun p4 =>
      match p4.2 with
      | [] => some ⟨p1.1, p2.1, p3.1, p4.1⟩
      | _ => none
  | _ => none

theorem RecMap_rt (r : RecMap) : RecMap.fromJson r.toJson = some r := by
  cases r
  have h1 := decodeList_map JVal.str dStr (fun s => rfl)
  simp [RecMap.toJson, RecMap.fromJson, fieldD, dArr, h1]

/-- JSON encoding of the full analysis_results dict of analyze_platform as
serialized by generate_report. -/
def Report.toJson (r : Report) : JVal :=
  .obj [("login_page", r.login_page.toJson),
    ("main_application", r.main_application.toJson),
    ("recommendations", r.recommendations.toJson),
    ("public_pages", r.public_pages.toJson)]

/-- Strict JSON decoder for the full analysis_results dict of
analyze_platform. -/
def Report.fromJson (v : JVal) : Option Report :=
  match v with
  | .obj fs =>
      (fieldD "login_page" LoginAnalysis.fromJson fs).bind fun p1 =>
      (fieldD "main_application" AppAnalysis.fromJson p1.2).bind fun p2 =>
      (fieldD "recommendations" RecMap.fromJson p2.2).bind fun p3 =>
      (fieldD "public_pages" PublicAnalysis.fromJson p3.2).bind fun p4 =>
      match p4.2 with
      | [] => some ⟨p1.1, p2.1, p3.1, p4.1⟩
      | _ => none
  | _ => none

theorem Report_rt (r : Report) : Report.fromJson r.toJson = some r := by
  cases r
  simp [Report.toJson, Report.fromJson, fieldD, LoginAnalysis_rt,
    AppAnalysis_rt, RecMap_rt, PublicAnalysis_rt]

end Platform

namespace Comp

/-- The fixed markdown recommendations text returned by the method
_generate_recommendations of EllaAIAnalyzer.  The method reads nothing: its
body is a single string literal, so the embedding ignores the analysis
results it conceptually has access to through self. -/
def recommendationsText : String :=
  "\n### Key Recommendations\n\n1. **Design Consistency**\n   - Standardize CSS variables across main app and admin interface\n   - Implement shared design system components\n   - Ensure consistent Material-UI theme usage\n\n2. **Admin Interface Improvements**\n   - Fix any non-functional admin pages identified\n   - Improve form validation and error handling\n   - Enhance mobile responsiveness for admin workflows\n\n3. **Service Connectivity**\n   - Optimize API response times\n   - Implement proper error handling for failed requests\n   - Add loading states for better UX\n\n4. **Next Steps**\n   - Address design gaps identified in this analysis\n   - Implement missing admin functionality\n   - Create comprehensive admin interface rebuild plan\n"

/-- Embedding of the method _generate_recommendations: it returns the fixed
text for every state of the analysis results. -/
def _generate_recommendations (_ : AnalysisResults) : String :=
  recommendationsText

end Comp

/-- Did this step succeed (Except carrying a success). -/
def exOk {α : Type} : Except String α → Bool
  | .ok _ => true
  | .error _ => false

namespace Platform

/-- Number of accessible_pages entries the analyze_main_application loop
records for one URL, read off the per-iteration control flow: nothing on a
raised probe or a login redirect, one entry otherwise. -/
def mainExpected (o : String → MainOutcome) (u : String) : Nat :=
  match o u with
  | .exn _ => 0
  | .ok f _ _ _ => if strHasSub f.toLower "login" then 0 else 1

/-- Number of accessible_content entries the check_public_pages loop records
for one URL: one error entry on a raised probe, none on a login redirect,
one success entry when the body read also succeeds, and two entries (the
success entry plus the except-branch error entry) when the body read raises
after the append. -/
def pubExpected (o : String → PublicOutcome) (u : String) : Nat :=
  match o u with
  | .exn _ => 1
  | .ok f _ body =>
      if strHasSub f.toLower "login" then 0
      else
        match body with
        | .error _ => 2
        | .ok _ => 1

end Platform

/-- C5: serializing the aggregated Report to JSON and re-parsing it yields a
structure equal to the in-memory Report, for every report either pipeline
can produce: the strict decoders recover every analysis_results value of the
comprehensive script and every analysis_results value of analyze_platform
from their JSON encodings.  The byte-level JSON writer and reader are the
json library collaborator; every value the pipelines place in a report is a
JSON-native dict, list, string, boolean or exact number, so the dump-to-text
and parse-from-text steps are lossless and the aggregation-level encoding
proved here is the content of the round trip. -/
theorem claim_C5_report_roundtrip :
    (∀ r : Comp.AnalysisResults,
      Comp.AnalysisResults.fromJson (Comp.AnalysisResults.toJson r) = some r)
    ∧ (∀ r : Platform.Report,
      Platform.Report.fromJson (Platform.Report.toJson r) = some r) :=
  ⟨Comp.AnalysisResults_rt, Platform.Report_rt⟩

/-- C9: the recommendations component is a fixed constant: the method
_generate_recommendations returns the same text for all analysis results,
generate_report prints the same generate_recommendations mapping for all
platform results, and that mapping carries exactly the four priority keys. -/
theorem claim_C9_recommendations_constant :
    (∀ r r' : Comp.AnalysisResults,
        Comp._generate_recommendations r = Comp._generate_recommendations r')
    ∧ (∀ s s' : Platform.RunResults,
        Platform.reportRecommendations s = Platform.reportRecommendations s')
    ∧ (Platform.RecMap.toJson Platform.generate_recommendations).objKeys
        = ["critical", "high_priority", "medium_priority", "low_priority"]
    ∧ Platform.generate_recommendations.critical.length = 5 :=
  ⟨fun _ _ => rfl, fun _ _ => rfl, rfl, rfl⟩

/-- C4 as stated is false on analyze_platform: with the browser launched and
every stage observed, a failing report write (json dump raising) is caught
by the top-level except handler, so the process still exits 0 with no report
written, where the claim requires a non-zero exit. -/
def c4cexEnv : Platform.PlatEnv :=
  { launch := .ok ()
    loginObs := .ok ⟨true, true, true, true, true, true⟩
    mainObs := fun _ => .exn "net::ERR_ABORTED"
    pubObs := fun _ => .exn "net::ERR_ABORTED"
    writeOk := .error "disk full" }

/-- C4 counterexample: a run of analyze_platform whose report serialization
fails still exits with code 0, and the report file was never written. -/
theorem claim_C4_counterexample :
    c4cexEnv.writeOk = .error "disk full"
    ∧ (Platform.analyze_platform c4cexEnv).exitCode = 0
    ∧ (Platform.analyze_platform c4cexEnv).results.reportWritten = false :=
  ⟨rfl, rfl, rfl⟩

/-- C4 amended: the comprehensive script exits 0 exactly when browser launch
and every global stage (main-app probe, connectivity probe, report write)
succeed and 1 otherwise, as the claim says; analyze_platform instead exits
non-zero only when browser acquisition fails, because its except handler
swallows every later failure, including a failing report serialization. -/
theorem claim_C4_amended :
    ∀ (cenv : Comp.FullEnv) (penv : Platform.PlatEnv),
      Comp.comprehensiveExit cenv
        = (if exOk cenv.launch && exOk cenv.mainObs && exOk cenv.connObs
              && exOk cenv.serializeOk then 0 else 1)
      ∧ (Platform.analyze_platform penv).exitCode
        = (if exOk penv.launch then 0 else 1) := by
  intro cenv penv
  constructor
  · cases h1 : cenv.launch with
    | error m => simp [Comp.comprehensiveExit, Comp.run_analysis, h1, exOk]
    | ok u =>
        cases h2 : cenv.mainObs with
        | error m =>
            simp [Comp.comprehensiveExit, Comp.run_analysis, h1, h2, exOk]
        | ok mo =>
            cases h3 : cenv.connObs with
            | error m =>
                simp [Comp.comprehensiveExit, Comp.run_analysis, h1, h2, h3, exOk]
            | ok co =>
                cases h4 : cenv.serializeOk with
                | error m =>
                    simp [Comp.comprehensiveExit, Comp.run_analysis,
                      h1, h2, h3, h4, exOk]
                | ok u2 =>
                    simp [Comp.comprehensiveExit, Comp.run_analysis,
                      h1, h2, h3, h4, exOk]
  · cases h : penv.launch with
    | error m => simp [Platform.analyze_platform, h, exOk]
    | ok u => simp [Platform.analyze_platform, h, exOk]

/-- Page state with no content-bearing DOM facts. -/
def emptyPageState : Comp.PageState :=
  { title := "EllaAI", url := "x", bodyTextLen := 0, formElemCount := 0
    tableCount := 0, navCount := 0, cardCount := 0, loadingCount := 0
    errorMessages := [], formFields := [], actionButtons := [] }

/-- Form-test observations in which every locator count is zero. -/
def emptyFtObs : Comp.FtObs :=
  { requiredCount := .ok 0, submitCount := .ok 0, clickValidationCount := .ok 0 }

/-- Design tokens of a page exposing no variables, theme or key elements. -/
def emptyTokens : Comp.DesignTokens :=
  { cssVariables := [], muiTheme := none, elementStyles := [] }

/-- A probed admin page whose navigation response carries HTTP status 404
while its single-page-app shell still renders five hundred characters of
body text. -/
def c3obs : Comp.AdminPageObs :=
  { respStatus := some 404, count404 := 0
    state := { emptyPageState with bodyTextLen := 500 }
    ft := emptyFtObs, tokens := emptyTokens, shot := "s.png" }

/-- Admin outcome oracle answering every path with the 404-with-content
observation. -/
def c3outc : String → Comp.AdminOutcome := fun _ => .ok c3obs

/-- C3 counterexample: probing a target whose response status is 404 (at
least 400) records is_error true and the status code, but hasContent is
computed only from the body text length, so here it is true where the claim
requires false. -/
theorem claim_C3_counterexample :
    (Comp.probeAdminPage c3outc "/admin").statusOf = some 404
    ∧ (Comp.probeAdminPage c3outc "/admin").isErr = some true
    ∧ (Comp.probeAdminPage c3outc "/admin").hasContentOf = some true :=
  ⟨rfl, rfl, rfl⟩

/-- C3 amended: for every probed target whose navigation response carries an
HTTP error status (at least 400), the resulting entry has is_error true and
the status code recorded, while its hasContent flag equals the body-text
length test (over 100 characters) and is not forced to false. -/
theorem claim_C3_amended :
    ∀ (outc : String → Comp.AdminOutcome) (p : String) (o : Comp.AdminPageObs),
      outc p = .ok o → 400 ≤ o.respStatus.getD 0 →
      (Comp.probeAdminPage outc p).isErr = some true
      ∧ (Comp.probeAdminPage outc p).statusOf = some (o.respStatus.getD 0)
      ∧ (Comp.probeAdminPage outc p).hasContentOf
          = some (decide (100 < o.state.bodyTextLen)) := by
  intro outc p o h h400
  have hd : decide (400 ≤ o.respStatus.getD 0) = true := decide_eq_true h400
  refine ⟨?_, ?_, ?_⟩
  · simp [Comp.probeAdminPage, h, Comp.PageEntry.isErr, hd]
  · simp [Comp.probeAdminPage, h, Comp.PageEntry.statusOf]
  · simp [Comp.probeAdminPage, h, Comp.PageEntry.hasContentOf,
      Comp.mkPageAnalysis]

/-- C3 witness: the amended statement applied to the concrete 404
observation. -/
theorem claim_C3_witness :
    c3outc "/admin" = .ok c3obs
    ∧ 400 ≤ c3obs.respStatus.getD 0
    ∧ ((Comp.probeAdminPage c3outc "/admin").isErr = some true
        ∧ (Comp.probeAdminPage c3outc "/admin").statusOf
            = some (c3obs.respStatus.getD 0)
        ∧ (Comp.probeAdminPage c3outc "/admin").hasContentOf
            = some (decide (100 < c3obs.state.bodyTextLen))) :=
  ⟨rfl, by decide, claim_C3_amended c3outc "/admin" c3obs rfl (by decide)⟩

/-- In a keyed map over a duplicate-free key list, exactly one entry carries
a present key. -/
theorem countP_map_keyed_eq_one {β : Type} (f : String → β) (l : List String)
    (p : String) (hm : p ∈ l) (hnd : l.Nodup) :
    ((l.map (fun q => (q, f q))).countP (fun e => e.1 == p)) = 1 := by
  induction l with
  | nil => cases hm
  | cons a t ih =>
      simp only [List.map_cons, List.countP_cons]
      rcases List.mem_cons.mp hm with h | h
      · subst h
        have h0 : ((t.map (fun q => (q, f q))).countP (fun e => e.1 == p)) = 0 := by
          apply List.countP_eq_zero.mpr
          intro b hb
          rcases List.mem_map.mp hb with ⟨s, hs, rfl⟩
          have : s ≠ p := by
            intro hc
            subst hc
            exact (List.nodup_cons.mp hnd).1 hs
          simp [this]
        simp [h0]
      · have hne : a ≠ p := by
          intro hc
          subst hc
          exact (List.nodup_cons.mp hnd).1 h
        have := ih h (List.nodup_cons.mp hnd).2
        simp [this, hne]

namespace Platform

/-- The accessible_pages list is the concatenation of the per-URL
contributions, in enumeration order. -/
theorem accessible_pages_eq (o : String → MainOutcome) :
    (analyze_main_application o).accessible_pages
      = ((urls_to_check.map (mainStepEntries o)).flatten) := by
  unfold analyze_main_application
  rw [foldl_append_blocks₂ (mainStepEntries o) (mainStepNav o) urls_to_check [] []]
  simp

/-- The navigation_structure list is the concatenation of the per-URL
contributions, in enumeration order. -/
theorem navigation_structure_eq (o : String → MainOutcome) :
    (analyze_main_application o).navigation_structure
      = ((urls_to_check.map (mainStepNav o)).flatten) := by
  unfold analyze_main_application
  rw [foldl_append_blocks₂ (mainStepEntries o) (mainStepNav o) urls_to_check [] []]
  simp

/-- The accessible_content list is the concatenation of the per-URL
contributions, in enumeration order. -/
theorem accessible_content_eq (o : String → PublicOutcome) :
    (check_public_pages o).accessible_content
      = ((public_urls.map (pubEntriesFor o)).flatten) := by
  unfold check_public_pages
  rw [foldl_append_blocks₂ (pubEntriesFor o) (pubInsightsFor o) public_urls [] []]
  simp

/-- Every entry contributed for a URL carries that URL. -/
theorem mainStepEntries_key (o : String → MainOutcome) :
    ∀ s b, b ∈ mainStepEntries o s → b.url = s := by
  intro s b hb
  unfold mainStepEntries at hb
  cases h : o s with
  | exn m => simp [h] at hb
  | ok f t shot q =>
      rw [h] at hb
      by_cases hl : strHasSub f.toLower "login" = true
      · simp [hl] at hb
      · simp only [Bool.not_eq_true] at hl
        simp [hl] at hb
        simp [hb]

/-- Every entry contributed for a URL identifies that URL. -/
theorem pubEntriesFor_key (o : String → PublicOutcome) :
    ∀ s b, b ∈ pubEntriesFor o s → b.urlOf = s := by
  intro s b hb
  unfold pubEntriesFor at hb
  cases h : o s with
  | exn m =>
      rw [h] at hb
      simp at hb
      simp [hb, PubEntry.urlOf]
  | ok f t body =>
      rw [h] at hb
      by_cases hl : strHasSub f.toLower "login" = true
      · simp [hl] at hb
      · simp only [Bool.not_eq_true] at hl
        cases body with
        | error m =>
            simp [hl] at hb
            rcases hb with hb | hb <;> simp [hb, PubEntry.urlOf]
        | ok txt =>
            simp [hl] at hb
            simp [hb, PubEntry.urlOf]

/-- Per-URL entry count of the analyze_main_application loop. -/
theorem mainStepEntries_length (o : String → MainOutcome) (u : String) :
    (mainStepEntries o u).length = mainExpected o u := by
  unfold mainStepEntries mainExpected
  cases h : o u with
  | exn m => rfl
  | ok f t shot q =>
      by_cases hl : strHasSub f.toLower "login" = true
      · simp [hl]
      · simp only [Bool.not_eq_true] at hl
        simp [hl]

/-- Per-URL entry count of the check_public_pages loop. -/
theorem pubEntriesFor_length (o : String → PublicOutcome) (u : String) :
    (pubEntriesFor o u).length = pubExpected o u := by
  unfold pubEntriesFor pubExpected
  cases h : o u with
  | exn m => rfl
  | ok f t body =>
      by_cases hl : strHasSub f.toLower "login" = true
      · simp [hl]
      · simp only [Bool.not_eq_true] at hl
        cases body <;> simp [hl]

end Platform

/-- C1 as stated is false on analyze_platform: a main-application probe
whose navigation raises is caught and skipped without recording anything,
so the dashboard target, although probed, gains no accessible_pages entry. -/
def c1cexMainObs : String → Platform.MainOutcome :=
  fun _ => .exn "net::ERR_CONNECTION_REFUSED"

/-- C1 counterexample: the dashboard URL is in the enumeration, yet after a
run whose probes all raise, accessible_pages holds no entry at all, where
the claim requires exactly one entry per probed URL. -/
theorem claim_C1_counterexample :
    "https://ellaai-platform-prod.web.app/dashboard" ∈ Platform.urls_to_check
    ∧ (Platform.analyze_main_application c1cexMainObs).accessible_pages = [] :=
  ⟨by decide, rfl⟩

/-- C1 amended: the admin stage of the comprehensive script does record
exactly one pages entry per enumerated path, failures included; in
analyze_platform the per-URL entry counts instead follow the control flow:
accessible_pages gains one entry only for a successful probe not redirected
to login (raised probes are omitted), and accessible_content gains one entry
for a raised probe or a clean success, none for a login redirect, and two
when the body read raises after the success entry was appended. -/
theorem claim_C1_amended :
    ∀ (outc : String → Comp.AdminOutcome) (mo : String → Platform.MainOutcome)
      (po : String → Platform.PublicOutcome) (p u w : String),
      p ∈ Comp.admin_pages → u ∈ Platform.urls_to_check →
      w ∈ Platform.public_urls →
      ((Comp.analyze_admin_interface outc).pages.countP (fun e => e.1 == p)) = 1
      ∧ ((Platform.analyze_main_application mo).accessible_pages.countP
            (fun e => e.url == u)) = Platform.mainExpected mo u
      ∧ ((Platform.check_public_pages po).accessible_content.countP
            (fun e => e.urlOf == w)) = Platform.pubExpected po w := by
  intro outc mo po p u w hp hu hw
  refine ⟨?_, ?_, ?_⟩
  · unfold Comp.analyze_admin_interface
    exact countP_map_keyed_eq_one (Comp.probeAdminPage outc) Comp.admin_pages p
      hp (by decide)
  · rw [Platform.accessible_pages_eq]
    have := countP_join_keyed Platform.AccessiblePage.url
      (Platform.mainStepEntries mo) (Platform.mainStepEntries_key mo)
      Platform.urls_to_check u (by decide) hu
    rw [this, Platform.mainStepEntries_length]
  · rw [Platform.accessible_content_eq]
    have := countP_join_keyed Platform.PubEntry.urlOf
      (Platform.pubEntriesFor po) (Platform.pubEntriesFor_key po)
      Platform.public_urls w (by decide) hw
    rw [this, Platform.pubEntriesFor_length]

/-- C1 witness admin oracle: every admin probe raises. -/
def c1wOutc : String → Comp.AdminOutcome := fun _ => .exn "Timeout 10000ms exceeded"

/-- C1 witness main-application oracle: probes land on the demo page and the
screenshot succeeds, with no navigation elements found. -/
def c1wMo : String → Platform.MainOutcome :=
  fun _ => .ok "https://ellaai-platform-prod.web.app/demo" "EllaAI" (.ok ())
    (fun _ => .error "no elements")

/-- C1 witness public-page oracle: probes land on the about page but the
body read raises afterwards. -/
def c1wPo : String → Platform.PublicOutcome :=
  fun _ => .ok "https://ellaai-platform-prod.web.app/about" "EllaAI"
    (.error "Timeout")

/-- C1 witness: the amended statement applied to concrete oracles covering a
failing admin probe (still one entry), a successful main probe (one entry),
and a public probe whose body read raises (two entries). -/
theorem claim_C1_witness :
    "/admin" ∈ Comp.admin_pages
    ∧ "https://ellaai-platform-prod.web.app/demo" ∈ Platform.urls_to_check
    ∧ "https://ellaai-platform-prod.web.app/about" ∈ Platform.public_urls
    ∧ (((Comp.analyze_admin_interface c1wOutc).pages.countP
          (fun e => e.1 == "/admin")) = 1
       ∧ ((Platform.analyze_main_application c1wMo).accessible_pages.countP
            (fun e => e.url == "https://ellaai-platform-prod.web.app/demo"))
          = Platform.mainExpected c1wMo "https://ellaai-platform-prod.web.app/demo"
       ∧ ((Platform.check_public_pages c1wPo).accessible_content.countP
            (fun e => e.urlOf == "https://ellaai-platform-prod.web.app/about"))
          = Platform.pubExpected c1wPo "https://ellaai-platform-prod.web.app/about") :=
  ⟨by decide, by decide, by decide,
    claim_C1_amended c1wOutc c1wMo c1wPo "/admin"
      "https://ellaai-platform-prod.web.app/demo"
      "https://ellaai-platform-prod.web.app/about"
      (by decide) (by decide) (by decide)⟩

/-- C2 as stated is false on analyze_platform: analyze_login_page has no
try/except of its own, so a navigation failure there escapes the prober. -/
def c2cexEnv : Platform.PlatEnv :=
  { launch := .ok ()
    loginObs := .error "net::ERR_NAME_NOT_RESOLVED"
    mainObs := fun _ => .exn "never reached"
    pubObs := fun _ => .exn "never reached"
    writeOk := .ok () }

/-- C2 counterexample: when the login-page probe raises, the exception
escapes analyze_login_page to the top-level handler of analyze_platform: no
error field is recorded on any observation (login_page stays its initial
empty dict) and the later stages never probe their targets. -/
theorem claim_C2_counterexample :
    (Platform.pipelineStages c2cexEnv).2 = some "net::ERR_NAME_NOT_RESOLVED"
    ∧ (Platform.pipelineStages c2cexEnv).1.login_page = none
    ∧ (Platform.pipelineStages c2cexEnv).1.main_application = none
    ∧ (Platform.pipelineStages c2cexEnv).1.public_pages = none :=
  ⟨rfl, rfl, rfl, rfl⟩

/-- C2 amended: the admin prober of the comprehensive script does catch each
per-target failure locally, records it as that target's failed entry and
continues with the remaining targets; in analyze_platform the
analyze_main_application loop also continues past per-target failures
(though it records no error field, each URL contributing independently),
while analyze_login_page propagates its failure to the analyze_platform
boundary, whose handler abandons the remaining stages with nothing
recorded. -/
theorem claim_C2_amended :
    ∀ (outc : String → Comp.AdminOutcome) (env : Platform.PlatEnv)
      (p m lm : String),
      p ∈ Comp.admin_pages → outc p = .exn m → env.loginObs = .error lm →
      ((Comp.analyze_admin_interface outc).pages.find? (fun e => e.1 == p)
          = some (p, .failed m))
      ∧ ((Platform.analyze_main_application env.mainObs).accessible_pages
          = ((Platform.urls_to_check.map
              (Platform.mainStepEntries env.mainObs)).flatten))
      ∧ ((Platform.pipelineStages env).2 = some lm
         ∧ (Platform.pipelineStages env).1.login_page = none
         ∧ (Platform.pipelineStages env).1.main_application = none) := by
  intro outc env p m lm hp houtc hlogin
  refine ⟨?_, ?_, ?_⟩
  · unfold Comp.analyze_admin_interface
    rw [find?_map_keyed (Comp.probeAdminPage outc) Comp.admin_pages p hp
      (by decide)]
    simp [Comp.probeAdminPage, houtc]
  · exact Platform.accessible_pages_eq env.mainObs
  · refine ⟨?_, ?_, ?_⟩ <;>
      simp [Platform.pipelineStages, Platform.analyze_login_page, hlogin,
        Platform.initRunResults, Except.map]

/-- C2 witness environment: the login probe raises while the shared oracle
answers the admin paths with a failure message. -/
def c2wOutc : String → Comp.AdminOutcome := fun _ => .exn "net::ERR_FAILED"

/-- C2 witness: the amended statement applied to the concrete failing
environment. -/
theorem claim_C2_witness :
    "/admin/users" ∈ Comp.admin_pages
    ∧ c2wOutc "/admin/users" = .exn "net::ERR_FAILED"
    ∧ c2cexEnv.loginObs = .error "net::ERR_NAME_NOT_RESOLVED"
    ∧ (((Comp.analyze_admin_interface c2wOutc).pages.find?
          (fun e => e.1 == "/admin/users")
        = some ("/admin/users", .failed "net::ERR_FAILED"))
       ∧ ((Platform.analyze_main_application c2cexEnv.mainObs).accessible_pages
          = ((Platform.urls_to_check.map
              (Platform.mainStepEntries c2cexEnv.mainObs)).flatten))
       ∧ ((Platform.pipelineStages c2cexEnv).2
            = some "net::ERR_NAME_NOT_RESOLVED"
         ∧ (Platform.pipelineStages c2cexEnv).1.login_page = none
         ∧ (Platform.pipelineStages c2cexEnv).1.main_application = none)) :=
  ⟨by decide, rfl, rfl,
    claim_C2_amended c2wOutc c2cexEnv "/admin/users" "net::ERR_FAILED"
      "net::ERR_NAME_NOT_RESOLVED" (by decide) rfl rfl⟩

namespace Comp

/-- The top-level key list of a serialized analysis_results dict is the same
for every report: the six keys installed by the initializer. -/
theorem analysisResults_topKeys (r : AnalysisResults) :
    (AnalysisResults.toJson r).objKeys
      = ["timestamp", "main_app", "admin_interface", "design_analysis",
         "service_connectivity", "design_gaps"] := by
  cases r
  rfl

/-- The pages mapping of the admin stage is keyed exactly by the fixed
enumeration, for every oracle. -/
theorem adminPages_keys (outc : String → AdminOutcome) :
    (analyze_admin_interface outc).pages.map Prod.fst = admin_pages := by
  simp [analyze_admin_interface]
  exact List.map_id admin_pages

/-- The admin_interface of every completed run is the admin-stage result of
that run's oracle. -/
theorem runComprehensive_admin (env : FullEnv) (r : AnalysisResults)
    (h : runComprehensive env = some r) :
    r.admin_interface = analyze_admin_interface env.adminOutc := by
  unfold runComprehensive run_analysis at h
  cases h1 : env.launch with
  | error m => rw [h1] at h; simp at h
  | ok u =>
      rw [h1] at h
      cases h2 : env.mainObs with
      | error m => rw [h2] at h; simp at h
      | ok mo =>
          rw [h2] at h
          cases h3 : env.connObs with
          | error m => rw [h3] at h; simp at h
          | ok co =>
              rw [h3] at h
              cases h4 : env.serializeOk with
              | error m => rw [h4] at h; simp at h
              | ok u2 =>
                  rw [h4] at h
                  simp at h
                  rw [← h]

/-- Two pages entries that agree on being failure entries have the same key
set: six keys for a success entry, two for a failure entry. -/
theorem pageEntry_keys_of_isFailed (en1 en2 : PageEntry)
    (h : en1.isFailed = en2.isFailed) :
    (PageEntry.toJson en1).objKeys = (PageEntry.toJson en2).objKeys := by
  cases en1 <;> cases en2 <;>
    simp_all [PageEntry.isFailed, PageEntry.toJson, JVal.objKeys]

end Comp

/-- C6 shared concrete observations for the two compared runs. -/
def c6pstruct : Comp.PageStructure :=
  { title := "EllaAI", url := "https://ellaai-platform-prod.web.app/"
    bodyClasses := "", hasNavigation := false, hasCards := 0, hasButtons := 0
    colorScheme := "auto", mainContentSelector := true }

/-- C6 main-application observation shared by the two compared runs. -/
def c6mainObs : Comp.CompMainObs :=
  { shot := "main.png", tokens := emptyTokens, pstruct := c6pstruct
    loginInputCount := 2, ts := "2025-01-01T00:00:00" }

/-- C6 connectivity observation shared by the two compared runs. -/
def c6conn : Comp.ConnObs := { firebase := "loaded", reqs := [], loadTime := 1 }

/-- C6 first run: every admin probe succeeds with status 200. -/
def c6env1 : Comp.FullEnv :=
  { timestamp := "2025-01-01T00:00:00", launch := .ok ()
    mainObs := .ok c6mainObs
    adminOutc := fun _ => .ok
      { respStatus := some 200, count404 := 0, state := emptyPageState
        ft := emptyFtObs, tokens := emptyTokens, shot := "a.png" }
    connObs := .ok c6conn, serializeOk := .ok () }

/-- C6 second run over the same target set: the live site now times out, so
every admin probe raises. -/
def c6env2 : Comp.FullEnv :=
  { c6env1 with adminOutc := fun _ => .exn "Timeout 10000ms exceeded" }

/-- Key set of the pages entry a report holds for one path. -/
def pageKeysIn (r : Comp.AnalysisResults) (p : String) : Option (List String) :=
  (r.admin_interface.pages.find? (fun e => e.1 == p)).map
    (fun e => (Comp.PageEntry.toJson e.2).objKeys)

/-- C6 counterexample: two completed runs over the same static target set
whose live outcomes differ give the admin entry for the same path six keys
in one report and two keys (error, status) in the other, so the per-page
entry key sets are not identical as the claim requires. -/
theorem claim_C6_counterexample :
    (Comp.runComprehensive c6env1).map (fun r => pageKeysIn r "/admin")
      = some (some ["screenshot_path", "status_code", "is_error",
          "page_analysis", "functionality_test", "design_tokens"])
    ∧ (Comp.runComprehensive c6env2).map (fun r => pageKeysIn r "/admin")
      = some (some ["error", "status"]) :=
  ⟨rfl, rfl⟩

/-- C6 amended: any two completed runs produce reports with identical
top-level key sets and identical pages key sets (the fixed path
enumeration), and two per-page entries have identical key sets exactly when
the two runs agree on whether that probe failed (success entries carry six
keys, failure entries carry the two except-branch keys). -/
theorem claim_C6_amended :
    ∀ (e1 e2 : Comp.FullEnv) (r1 r2 : Comp.AnalysisResults)
      (en1 en2 : Comp.PageEntry),
      Comp.runComprehensive e1 = some r1 → Comp.runComprehensive e2 = some r2 →
      en1.isFailed = en2.isFailed →
      (Comp.AnalysisResults.toJson r1).objKeys
        = (Comp.AnalysisResults.toJson r2).objKeys
      ∧ r1.admin_interface.pages.map Prod.fst
          = r2.admin_interface.pages.map Prod.fst
      ∧ (Comp.PageEntry.toJson en1).objKeys
          = (Comp.PageEntry.toJson en2).objKeys := by
  intro e1 e2 r1 r2 en1 en2 h1 h2 hf
  refine ⟨?_, ?_, ?_⟩
  · rw [Comp.analysisResults_topKeys, Comp.analysisResults_topKeys]
  · rw [Comp.runComprehensive_admin e1 r1 h1, Comp.runComprehensive_admin e2 r2 h2,
      Comp.adminPages_keys, Comp.adminPages_keys]
  · exact Comp.pageEntry_keys_of_isFailed en1 en2 hf

/-- The report the C6 first run completes with. -/
def c6r1 : Comp.AnalysisResults :=
  { timestamp := c6env1.timestamp
    main_app :=
      { screenshot_path := c6mainObs.shot, page_structure := c6mainObs.pstruct
        design_tokens := c6mainObs.tokens
        is_login_page := decide (0 < c6mainObs.loginInputCount)
        timestamp := c6mainObs.ts }
    admin_interface := Comp.analyze_admin_interface c6env1.adminOutc
    service_connectivity := Comp.mkConnectivity c6conn
    design_gaps := Comp.compare_designs c6mainObs.tokens
      (Comp.analyze_admin_interface c6env1.adminOutc).pages }

/-- The report the C6 second run completes with. -/
def c6r2 : Comp.AnalysisResults :=
  { timestamp := c6env2.timestamp
    main_app :=
      { screenshot_path := c6mainObs.shot, page_structure := c6mainObs.pstruct
        design_tokens := c6mainObs.tokens
        is_login_page := decide (0 < c6mainObs.loginInputCount)
        timestamp := c6mainObs.ts }
    admin_interface := Comp.analyze_admin_interface c6env2.adminOutc
    service_connectivity := Comp.mkConnectivity c6conn
    design_gaps := Comp.compare_designs c6mainObs.tokens
      (Comp.analyze_admin_interface c6env2.adminOutc).pages }

/-- C6 witness: the amended statement applied to the two concrete completed
runs and to two concrete failure entries. -/
theorem claim_C6_witness :
    Comp.runComprehensive c6env1 = some c6r1
    ∧ Comp.runComprehensive c6env2 = some c6r2
    ∧ (Comp.PageEntry.failed "a").isFailed = (Comp.PageEntry.failed "b").isFailed
    ∧ ((Comp.AnalysisResults.toJson c6r1).objKeys
          = (Comp.AnalysisResults.toJson c6r2).objKeys
       ∧ c6r1.admin_interface.pages.map Prod.fst
          = c6r2.admin_interface.pages.map Prod.fst
       ∧ (Comp.PageEntry.toJson (Comp.PageEntry.failed "a")).objKeys
          = (Comp.PageEntry.toJson (Comp.PageEntry.failed "b")).objKeys) :=
  ⟨rfl, rfl, rfl,
    claim_C6_amended c6env1 c6env2 c6r1 c6r2
      (Comp.PageEntry.failed "a") (Comp.PageEntry.failed "b") rfl rfl rfl⟩

/-- A flatten of blocks each free of matches has no matches. -/
theorem countP_flatten_zero {α : Type} (p : α → Bool) (ll : List (List α))
    (h : ∀ l ∈ ll, l.countP p = 0) : ll.flatten.countP p = 0 := by
  induction ll with
  | nil => rfl
  | cons a t ih =>
      simp only [List.flatten_cons, List.countP_append]
      rw [h a (by simp), ih (fun l hl => h l (by simp [hl]))]

/-- An event list of probe steps followed by the single finally-block close
ends with exactly that close. -/
theorem closesOnce_of_concat (pre : List Event)
    (h : pre.countP (fun e => e == Event.close) = 0) :
    closesOnceAtEnd (pre ++ [Event.close]) := by
  constructor
  · simp [List.getLast?_concat]
  · rw [List.countP_append, h]
    rfl

/-- Per-target admin probe steps never close the browser. -/
theorem adminTargetEvents_close_count (outc : String → Comp.AdminOutcome)
    (p : String) :
    (Comp.adminTargetEvents outc p).countP (fun e => e == Event.close) = 0 := by
  unfold Comp.adminTargetEvents
  cases outc p <;> rfl

/-- The admin loop trace never closes the browser. -/
theorem adminStageTrace_close_count (outc : String → Comp.AdminOutcome) :
    (Comp.adminStageTrace outc).countP (fun e => e == Event.close) = 0 := by
  unfold Comp.adminStageTrace
  rw [foldl_append_blocks]
  simp only [List.nil_append]
  apply countP_flatten_zero
  intro l hl
  rcases List.mem_map.mp hl with ⟨p, _, rfl⟩
  exact adminTargetEvents_close_count outc p

/-- Per-URL main-loop probe steps never close the browser. -/
theorem mainUrlEvents_close_count (o : String → Platform.MainOutcome)
    (u : String) :
    (Platform.mainUrlEvents o u).countP (fun e => e == Event.close) = 0 := by
  unfold Platform.mainUrlEvents
  cases o u with
  | exn m => rfl
  | ok f t shot q =>
      by_cases hl : strHasSub f.toLower "login" = true
      · simp [hl]
      · simp only [Bool.not_eq_true] at hl
        cases shot <;> simp [hl]

/-- The main loop trace never closes the browser. -/
theorem mainLoopTrace_close_count (o : String → Platform.MainOutcome) :
    (Platform.mainLoopTrace o).countP (fun e => e == Event.close) = 0 := by
  unfold Platform.mainLoopTrace
  rw [foldl_append_blocks]
  simp only [List.nil_append]
  apply countP_flatten_zero
  intro l hl
  rcases List.mem_map.mp hl with ⟨u, _, rfl⟩
  exact mainUrlEvents_close_count o u

/-- The try-block body of analyze_platform never closes the browser. -/
theorem platStageEvents_close_count (env : Platform.PlatEnv) :
    (Platform.platStageEvents env).countP (fun e => e == Event.close) = 0 := by
  unfold Platform.platStageEvents
  cases env.loginObs with
  | error m => rfl
  | ok lo =>
      simp only [List.countP_append]
      rw [mainLoopTrace_close_count]
      rfl

/-- C7: the browser session is a scoped resource in all three scripts: on
every run whose browser acquisition succeeded, whatever the per-target and
per-stage outcomes, the emitted event trace ends with browser close and
contains exactly one close (the finally block runs once, last). -/
theorem claim_C7_browser_session_scoped :
    ∀ (cenv : Comp.FullEnv) (penv : Platform.PlatEnv)
      (aenv : AdminScript.AdminScriptEnv),
      cenv.launch = .ok () → penv.launch = .ok () → aenv.launch = .ok () →
      closesOnceAtEnd (Comp.run_analysis cenv).events
      ∧ closesOnceAtEnd (Platform.analyze_platform penv).events
      ∧ closesOnceAtEnd (AdminScript.analyze_ellaai_admin aenv).1 := by
  intro cenv penv aenv hc hp ha
  refine ⟨?_, ?_, ?_⟩
  · unfold Comp.run_analysis
    rw [hc]
    cases h2 : cenv.mainObs with
    | error m => exact closesOnce_of_concat _ rfl
    | ok mo =>
        cases h3 : cenv.connObs with
        | error m =>
            apply closesOnce_of_concat
            simp only [List.countP_append]
            rw [adminStageTrace_close_count]
            rfl
        | ok co =>
            cases h4 : cenv.serializeOk <;>
              · apply closesOnce_of_concat
                simp only [List.countP_append]
                rw [adminStageTrace_close_count]
                rfl
  · unfold Platform.analyze_platform
    rw [hp]
    apply closesOnce_of_concat
    simp only [List.countP_append]
    rw [platStageEvents_close_count]
    rfl
  · unfold AdminScript.analyze_ellaai_admin
    rw [ha]
    cases h2 : aenv.nav with
    | error m => exact ⟨rfl, rfl⟩
    | ok o =>
        by_cases hl : (strHasSub o.url.toLower "login"
            || strHasSub o.url.toLower "auth") = true
        · simp only [hl, if_true]
          exact ⟨rfl, rfl⟩
        · simp only [Bool.not_eq_true] at hl
          simp only [hl, Bool.false_eq_true, if_false]
          exact ⟨rfl, rfl⟩

/-- C7 witness environments: runs with a launched browser whose stages all
fail. -/
def c7cEnv : Comp.FullEnv :=
  { timestamp := "t", launch := .ok (), mainObs := .error "boom"
    adminOutc := fun _ => .exn "boom", connObs := .error "boom"
    serializeOk := .error "boom" }

/-- C7 witness platform environment. -/
def c7pEnv : Platform.PlatEnv :=
  { launch := .ok (), loginObs := .error "boom"
    mainObs := fun _ => .exn "boom", pubObs := fun _ => .exn "boom"
    writeOk := .error "boom" }

/-- C7 witness admin-script environment. -/
def c7aEnv : AdminScript.AdminScriptEnv :=
  { launch := .ok (), nav := .error "boom" }

/-- C7 witness: the scoping statement applied to the concrete environments. -/
theorem claim_C7_witness :
    c7cEnv.launch = .ok () ∧ c7pEnv.launch = .ok () ∧ c7aEnv.launch = .ok ()
    ∧ (closesOnceAtEnd (Comp.run_analysis c7cEnv).events
       ∧ closesOnceAtEnd (Platform.analyze_platform c7pEnv).events
       ∧ closesOnceAtEnd (AdminScript.analyze_ellaai_admin c7aEnv).1) :=
  ⟨rfl, rfl, rfl, claim_C7_browser_session_scoped c7cEnv c7pEnv c7aEnv rfl rfl rfl⟩

namespace Comp

/-- Every per-target admin probe event is tagged with its own target. -/
theorem adminTargetEvents_url (outc : String → AdminOutcome) (p : String) :
    ∀ e ∈ adminTargetEvents outc p, e.urlOf = some (base_url ++ p) := by
  intro e he
  unfold adminTargetEvents at he
  cases h : outc p with
  | exn m =>
      rw [h] at he
      simp at he
      rcases he with rfl | rfl <;> rfl
  | ok o =>
      rw [h] at he
      simp at he
      rcases he with rfl | rfl | rfl | rfl | rfl <;> rfl

end Comp

namespace Platform

/-- Every per-URL main-loop probe event is tagged with its own URL. -/
theorem mainUrlEvents_url (o : String → MainOutcome) (u : String) :
    ∀ e ∈ mainUrlEvents o u, e.urlOf = some u := by
  intro e he
  unfold mainUrlEvents at he
  cases h : o u with
  | exn m =>
      rw [h] at he
      simp at he
      rw [he]
      rfl
  | ok f t shot q =>
      rw [h] at he
      by_cases hl : strHasSub f.toLower "login" = true
      · simp [hl] at he
        rw [he]
        rfl
      · simp only [Bool.not_eq_true] at hl
        cases shot with
        | error m =>
            simp [hl] at he
            rcases he with rfl | rfl <;> rfl
        | ok v =>
            simp [hl] at he
            rcases he with rfl | rfl | rfl | rfl <;> rfl

end Platform

/-- C8: execution is strictly sequential over the target enumerations: the
trace a probing loop accumulates is exactly the concatenation of per-target
event blocks in enumeration order, and every event of a block is tagged with
that block's own target, so all probe steps of an earlier target precede
every step of a later one and no two targets interleave. -/
theorem claim_C8_sequential_probing :
    ∀ (outc : String → Comp.AdminOutcome) (mo : String → Platform.MainOutcome),
      Comp.adminStageTrace outc
        = ((Comp.admin_pages.map (Comp.adminTargetEvents outc)).flatten)
      ∧ (∀ p e, e ∈ Comp.adminTargetEvents outc p →
            e.urlOf = some (Comp.base_url ++ p))
      ∧ Platform.mainLoopTrace mo
        = ((Platform.urls_to_check.map (Platform.mainUrlEvents mo)).flatten)
      ∧ (∀ u e, e ∈ Platform.mainUrlEvents mo u → e.urlOf = some u) := by
  intro outc mo
  refine ⟨?_, ?_, ?_, ?_⟩
  · unfold Comp.adminStageTrace
    rw [foldl_append_blocks]
    simp
  · intro p e he
    exact Comp.adminTargetEvents_url outc p e he
  · unfold Platform.mainLoopTrace
    rw [foldl_append_blocks]
    simp
  · intro u e he
    exact Platform.mainUrlEvents_url mo u e he

/-- C8 witness admin oracle: every probe raises. -/
def c8wOutc : String → Comp.AdminOutcome := fun _ => .exn "Timeout"

/-- C8 witness main-loop oracle: every probe raises. -/
def c8wMo : String → Platform.MainOutcome := fun _ => .exn "Timeout"

/-- C8 witness: the sequencing statement applied to concrete oracles and a
concrete event of a concrete target block. -/
theorem claim_C8_witness :
    Event.navigate (Comp.base_url ++ "/admin")
        ∈ Comp.adminTargetEvents c8wOutc "/admin"
    ∧ Event.navigate "https://ellaai-platform-prod.web.app/demo"
        ∈ Platform.mainUrlEvents c8wMo "https://ellaai-platform-prod.web.app/demo"
    ∧ Comp.adminStageTrace c8wOutc
        = ((Comp.admin_pages.map (Comp.adminTargetEvents c8wOutc)).flatten)
    ∧ (Event.navigate (Comp.base_url ++ "/admin")).urlOf
        = some (Comp.base_url ++ "/admin")
    ∧ Platform.mainLoopTrace c8wMo
        = ((Platform.urls_to_check.map (Platform.mainUrlEvents c8wMo)).flatten)
    ∧ (Event.navigate "https://ellaai-platform-prod.web.app/demo").urlOf
        = some "https://ellaai-platform-prod.web.app/demo" :=
  ⟨by decide, by decide,
    (claim_C8_sequential_probing c8wOutc c8wMo).1,
    (claim_C8_sequential_probing c8wOutc c8wMo).2.1 "/admin"
      (Event.navigate (Comp.base_url ++ "/admin")) (by decide),
    (claim_C8_sequential_probing c8wOutc c8wMo).2.2.1,
    (claim_C8_sequential_probing c8wOutc c8wMo).2.2.2
      "https://ellaai-platform-prod.web.app/demo"
      (Event.navigate "https://ellaai-platform-prod.web.app/demo") (by decide)⟩

namespace AdminScript

/-- The analyze_navigation result is the concatenation of per-link
contributions over the first twenty links. -/
theorem analyze_navigation_eq (links : List LinkElem) :
    analyze_navigation links = (((links.take 20).map navStep).flatten) := by
  unfold analyze_navigation
  rw [foldl_append_blocks]
  simp

/-- One link contributes at most one item. -/
theorem navStep_length (l : LinkElem) : (navStep l).length ≤ 1 := by
  unfold navStep
  cases l.fetch with
  | error m => simp
  | ok td =>
      dsimp
      split <;> simp

/-- Every recorded navigation item is the untruncated stripped text of a
link whose reads succeeded, non-empty and strictly shorter than 50
characters. -/
theorem navStep_mem (l : LinkElem) (it : String × String)
    (h : it ∈ navStep l) :
    ∃ raw href, l.fetch = .ok (raw, href)
      ∧ it = (pyStrip raw, href.getD "N/A")
      ∧ pyStrip raw ≠ "" ∧ (pyStrip raw).length < 50 := by
  unfold navStep at h
  cases hf : l.fetch with
  | error m =>
      rw [hf] at h
      simp at h
  | ok td =>
      rw [hf] at h
      rcases td with ⟨raw, href⟩
      dsimp at h
      by_cases hc : (pyStrip raw != "" && decide ((pyStrip raw).length < 50)) = true
      · rw [if_pos hc] at h
        simp at h
        have hc' := hc
        simp only [Bool.and_eq_true, bne_iff_ne, decide_eq_true_eq] at hc'
        subst h
        exact ⟨raw, href, rfl, rfl, hc'.1, hc'.2⟩
      · rw [if_neg hc] at h
        simp at h

end AdminScript

namespace Platform

/-- Processing a selector's elements yields at most one item per element. -/
theorem processElems_length (es : List PElem) :
    (processElems es).length ≤ es.length := by
  induction es with
  | nil => simp [processElems]
  | cons e rest ih =>
      unfold processElems
      cases e.fetch with
      | error m => simp
      | ok td =>
          dsimp
          split <;> simp <;> omega

/-- Every item a selector's elements yield is the untruncated stripped text
of an element whose reads succeeded, non-empty and strictly shorter than 30
characters. -/
theorem processElems_mem (es : List PElem) (it : NavItem)
    (h : it ∈ processElems es) :
    ∃ e ∈ es, ∃ raw, e.fetch = .ok (raw, it.href)
      ∧ it.text = pyStrip raw ∧ it.text ≠ "" ∧ it.text.length < 30 := by
  induction es with
  | nil => simp [processElems] at h
  | cons e rest ih =>
      unfold processElems at h
      cases hf : e.fetch with
      | error m =>
          rw [hf] at h
          simp at h
      | ok td =>
          rw [hf] at h
          rcases td with ⟨raw, href⟩
          dsimp at h
          by_cases hc : (pyStrip raw != "" && decide ((pyStrip raw).length < 30)) = true
          · rw [if_pos hc] at h
            rcases List.mem_append.mp h with h1 | h2
            · simp at h1
              have hc' := hc
              simp only [Bool.and_eq_true, bne_iff_ne, decide_eq_true_eq] at hc'
              subst h1
              exact ⟨e, by simp, raw, hf, rfl, hc'.1, hc'.2⟩
            · rcases ih h2 with ⟨e2, he2, raw2, hfe, ht, hne, hlt⟩
              exact ⟨e2, by simp [he2], raw2, hfe, ht, hne, hlt⟩
          · rw [if_neg hc] at h
            simp only [List.nil_append] at h
            rcases ih h with ⟨e2, he2, raw2, hfe, ht, hne, hlt⟩
            exact ⟨e2, by simp [he2], raw2, hfe, ht, hne, hlt⟩

/-- One selector contributes at most ten items. -/
theorem selContribution_length (q : String → Except String (List PElem))
    (s : String) : (selContribution q s).length ≤ 10 := by
  unfold selContribution
  cases q s with
  | error m => simp
  | ok elems =>
      calc (processElems (elems.take 10)).length ≤ (elems.take 10).length :=
            processElems_length _
        _ ≤ 10 := List.length_take_le _ _

/-- The extracted navigation items are the concatenation of per-selector
contributions. -/
theorem extract_navigation_items_eq (q : String → Except String (List PElem)) :
    extract_navigation_items q
      = ((nav_selectors.map (selContribution q)).flatten) := by
  unfold extract_navigation_items
  rw [foldl_append_blocks]
  simp

end Platform

/-- C10: navigation extraction is bounded and filtered.  analyze_navigation
records at most 20 items, each the untruncated stripped text of one of the
first twenty links, non-empty and strictly shorter than 50 characters;
extract_navigation_items records at most 10 items per selector and at most
60 in total over its six selectors, each the untruncated stripped text of
one of the first ten elements of some selector, non-empty and strictly
shorter than 30 characters.  Longer texts contribute nothing: the recorded
text is always the full stripped text, never a prefix of it. -/
theorem claim_C10_navigation_bounded_filtered :
    ∀ (links : List AdminScript.LinkElem)
      (q : String → Except String (List Platform.PElem)),
      (AdminScript.analyze_navigation links).length ≤ 20
      ∧ (∀ it ∈ AdminScript.analyze_navigation links,
          it.1 ≠ "" ∧ it.1.length < 50
          ∧ ∃ l ∈ links.take 20, ∃ raw href,
              l.fetch = .ok (raw, href) ∧ it.1 = pyStrip raw)
      ∧ (Platform.extract_navigation_items q).length ≤ 60
      ∧ (∀ s, (Platform.selContribution q s).length ≤ 10)
      ∧ (∀ it ∈ Platform.extract_navigation_items q,
          it.text ≠ "" ∧ it.text.length < 30
          ∧ ∃ s ∈ Platform.nav_selectors, ∃ elems, q s = .ok elems
              ∧ ∃ e ∈ elems.take 10, ∃ raw,
                  e.fetch = .ok (raw, it.href) ∧ it.text = pyStrip raw) := by
  intro links q
  refine ⟨?_, ?_, ?_, ?_, ?_⟩
  · rw [AdminScript.analyze_navigation_eq]
    calc (((links.take 20).map AdminScript.navStep).flatten).length
        ≤ (links.take 20).length * 1 :=
          join_length_le _ _ 1 (fun l _ => AdminScript.navStep_length l)
      _ ≤ 20 := by
          have := List.length_take_le 20 links
          omega
  · intro it hit
    rw [AdminScript.analyze_navigation_eq] at hit
    rcases List.mem_flatten.mp hit with ⟨blk, hblk, hmem⟩
    rcases List.mem_map.mp hblk with ⟨l, hl, rfl⟩
    rcases AdminScript.navStep_mem l it hmem with ⟨raw, href, hf, hel, hne, hlt⟩
    refine ⟨?_, ?_, l, hl, raw, href, hf, ?_⟩
    · rw [hel]
      simpa using hne
    · rw [hel]
      simpa using hlt
    · rw [hel]
  · rw [Platform.extract_navigation_items_eq]
    calc (((Platform.nav_selectors.map (Platform.selContribution q)).flatten).length)
        ≤ Platform.nav_selectors.length * 10 :=
          join_length_le _ _ 10 (fun s _ => Platform.selContribution_length q s)
      _ = 60 := rfl
  · intro s
    exact Platform.selContribution_length q s
  · intro it hit
    rw [Platform.extract_navigation_items_eq] at hit
    rcases List.mem_flatten.mp hit with ⟨blk, hblk, hmem⟩
    rcases List.mem_map.mp hblk with ⟨s, hs, rfl⟩
    unfold Platform.selContribution at hmem
    cases hq : q s with
    | error m =>
        rw [hq] at hmem
        simp at hmem
    | ok elems =>
        rw [hq] at hmem
        rcases Platform.processElems_mem _ it hmem with
          ⟨e, he, raw, hf, ht, hne, hlt⟩
        exact ⟨hne, hlt, s, hs, elems, hq, e, he, raw, hf, ht⟩

/-- C10 witness links: one link with padded text and an href. -/
def c10wLinks : List AdminScript.LinkElem :=
  [{ fetch := .ok ("  Dashboard  ", some "/dash") }]

/-- C10 witness selector oracle: every selector matches one short link. -/
def c10wQ : String → Except String (List Platform.PElem) :=
  fun _ => .ok [{ fetch := .ok ("Home", some "/") }]

/-- C10 witness: the bounds and filtering statement applied to the concrete
link list and selector oracle, at the concrete items they record. -/
theorem claim_C10_witness :
    ("Dashboard", "/dash") ∈ AdminScript.analyze_navigation c10wLinks
    ∧ (⟨"Home", some "/"⟩ : Platform.NavItem)
        ∈ Platform.extract_navigation_items c10wQ
    ∧ (AdminScript.analyze_navigation c10wLinks).length ≤ 20
    ∧ (("Dashboard", "/dash").1 ≠ "" ∧ ("Dashboard", "/dash").1.length < 50
        ∧ ∃ l ∈ c10wLinks.take 20, ∃ raw href,
            l.fetch = .ok (raw, href) ∧ ("Dashboard", "/dash").1 = pyStrip raw)
    ∧ (Platform.extract_navigation_items c10wQ).length ≤ 60
    ∧ ((⟨"Home", some "/"⟩ : Platform.NavItem).text ≠ ""
        ∧ (⟨"Home", some "/"⟩ : Platform.NavItem).text.length < 30
        ∧ ∃ s ∈ Platform.nav_selectors, ∃ elems, c10wQ s = .ok elems
            ∧ ∃ e ∈ elems.take 10, ∃ raw,
                e.fetch = .ok (raw, (⟨"Home", some "/"⟩ : Platform.NavItem).href)
                ∧ (⟨"Home", some "/"⟩ : Platform.NavItem).text = pyStrip raw) :=
  ⟨by decide, by decide,
    (claim_C10_navigation_bounded_filtered c10wLinks c10wQ).1,
    (claim_C10_navigation_bounded_filtered c10wLinks c10wQ).2.1
      ("Dashboard", "/dash") (by decide),
    (claim_C10_navigation_bounded_filtered c10wLinks c10wQ).2.2.1,
    (claim_C10_navigation_bounded_filtered c10wLinks c10wQ).2.2.2.2
      ⟨"Home", some "/"⟩ (by decide)⟩
